import Mathlib

/-!
Verification of the REST-to-SQL bridge (request routing, create-or-alter
reconciliation, statement execution and error mapping) of the
`snowflake.core._internal.bridge` package.

The Python sources are shallowly embedded: Python values that can occur in
request bodies and in normalized `SHOW`/`DESC` rows are modelled by `PyVal`,
dictionaries by association lists with unique keys, raised exceptions by
`Except`, and SQL execution by an explicit backend oracle
(`String → Except PyErr (List PyDict)`) together with a trace of executed
statements.  Each definition mirrors one function of the source tree
(file and function named in its doc comment).
-/

namespace Bridge

/-- Value universe for Python data reaching the bridge: `None`, booleans,
integers, strings, lists and string-keyed dictionaries (JSON-shaped). -/
inductive PyVal where
  | none
  | bool (b : Bool)
  | int (n : Int)
  | str (s : String)
  | list (xs : List PyVal)
  | dict (kvs : List (String × PyVal))
deriving Repr, Inhabited

-- Python `==` on `PyVal` (structural; note: Python dict equality is
-- key-order insensitive, this model compares dict entries in order.  No
-- theorem below depends on comparing two dictionaries with the same keys in
-- different orders).
mutual
def pyEq : PyVal → PyVal → Bool
  | .none, .none => true
  | .bool a, .bool b => a == b
  | .int a, .int b => a == b
  | .str a, .str b => a == b
  | .list a, .list b => pyEqList a b
  | .dict a, .dict b => pyEqDict a b
  | _, _ => false
def pyEqList : List PyVal → List PyVal → Bool
  | [], [] => true
  | a :: as, b :: bs => pyEq a b && pyEqList as bs
  | _, _ => false
def pyEqDict : List (String × PyVal) → List (String × PyVal) → Bool
  | [], [] => true
  | (k, v) :: as, (l, w) :: bs => k == l && pyEq v w && pyEqDict as bs
  | _, _ => false
end

/-- Python truthiness (`bool(v)`); empty containers, `0`, `""`, `None` and
`False` are falsy. -/
def pyTruthy : PyVal → Bool
  | .none => false
  | .bool b => b
  | .int n => n != 0
  | .str s => s != ""
  | .list xs => !xs.isEmpty
  | .dict kvs => !kvs.isEmpty

/-- A Python dictionary with string keys (e.g. a request body or a
normalized result row). -/
abbrev PyDict := List (String × PyVal)

/-- First binding of a key, if present. -/
def dlookup (d : PyDict) (k : String) : Option PyVal :=
  (d.find? (fun e => e.1 == k)).map (fun e => e.2)

/-- Python `d.get(k)`; absent keys give `None`. -/
def dget (d : PyDict) (k : String) : PyVal :=
  (dlookup d k).getD .none

/-- Python `d.get(k, default)`. -/
def dgetD (d : PyDict) (k : String) (v : PyVal) : PyVal :=
  (dlookup d k).getD v

/-- Python `k in d`. -/
def dcontains (d : PyDict) (k : String) : Bool :=
  (dlookup d k).isSome

/-- Python `d.keys()` in insertion order. -/
def dkeys (d : PyDict) : List String :=
  d.map (fun e => e.1)

/-- Python dictionaries never repeat a key; theorems carry this invariant
explicitly where it matters. -/
def nodupKeys (d : PyDict) : Prop :=
  (dkeys d).Nodup

instance (d : PyDict) : Decidable (nodupKeys d) := by
  unfold nodupKeys; infer_instance

/-! ### Character and string helpers (Python built-ins used by the bridge) -/

/-- Python `str.upper` for the ASCII range (all identifiers that reach
`upper()` in the modelled code are ASCII). -/
def pyUpperChar (c : Char) : Char :=
  if 'a' ≤ c && c ≤ 'z' then Char.ofNat (c.toNat - 32) else c

/-- ASCII `str.lower`. -/
def pyLowerChar (c : Char) : Char :=
  if 'A' ≤ c && c ≤ 'Z' then Char.ofNat (c.toNat + 32) else c

def pyUpper (s : String) : String := ⟨s.data.map pyUpperChar⟩

def pyLower (s : String) : String := ⟨s.data.map pyLowerChar⟩

/-- Python `str.replace(pat, rep)`: one left-to-right pass over the string,
replacing non-overlapping occurrences, never rescanning the replacement.
(Structural recursion on a fuel bounded by the string length, so that the
definition reduces inside the kernel; each step consumes at least one
character, so `l.length` fuel is always enough.) -/
def replListF (pat rep : List Char) : Nat → List Char → List Char
  | _, [] => []
  | 0, l => l
  | fuel + 1, c :: rest =>
    if pat ≠ [] ∧ List.isPrefixOf pat (c :: rest) then
      rep ++ replListF pat rep fuel (List.drop pat.length (c :: rest))
    else
      c :: replListF pat rep fuel rest

def replList (pat rep l : List Char) : List Char :=
  replListF pat rep l.length l

def pyReplace (s pat rep : String) : String :=
  ⟨replList pat.data rep.data s.data⟩

/-- Characters stripped by Python `str.strip()` with no argument. -/
def isPySpace (c : Char) : Bool :=
  c = ' ' || c = '\t' || c = '\n' || c = '\r' || c = '\x0b' || c = '\x0c'

def stripList (p : Char → Bool) (l : List Char) : List Char :=
  ((l.dropWhile p).reverse.dropWhile p).reverse

/-- Python `s.strip()`. -/
def pyStrip (s : String) : String := ⟨stripList isPySpace s.data⟩

/-- Python `s.strip(chars)`. -/
def pyStripChars (cs : String) (s : String) : String :=
  ⟨stripList (fun c => cs.data.contains c) s.data⟩

-- Python `repr` for values placed inside interpolated containers
-- (approximation: string escapes beyond quoting are not reproduced; no
-- proved path interpolates a container).
mutual
def pyRepr : PyVal → String
  | .none => "None"
  | .bool true => "True"
  | .bool false => "False"
  | .int n => toString n
  | .str s => "'" ++ s ++ "'"
  | .list xs => "[" ++ pyReprList xs ++ "]"
  | .dict kvs => "\x7b" ++ pyReprDict kvs ++ "\x7d"
def pyReprList : List PyVal → String
  | [] => ""
  | [x] => pyRepr x
  | x :: rest => pyRepr x ++ ", " ++ pyReprList rest
def pyReprDict : List (String × PyVal) → String
  | [] => ""
  | [(k, v)] => "'" ++ k ++ "': " ++ pyRepr v
  | (k, v) :: rest => "'" ++ k ++ "': " ++ pyRepr v ++ ", " ++ pyReprDict rest
end

/-- Python `str(v)` as used in f-string interpolation. -/
def pyStr : PyVal → String
  | .none => "None"
  | .bool true => "True"
  | .bool false => "False"
  | .int n => toString n
  | .str s => s
  | .list xs => pyRepr (.list xs)
  | .dict kvs => pyRepr (.dict kvs)

-- Python `json.dumps` with default separators, for the value shapes that
-- can occur in a request body (`config` and `session_parameters` payloads).
mutual
def jsonDumps : PyVal → String
  | .none => "null"
  | .bool true => "true"
  | .bool false => "false"
  | .int n => toString n
  | .str s => "\"" ++ pyReplace (pyReplace s "\\" "\\\\") "\"" "\\\"" ++ "\""
  | .list xs => "[" ++ jsonDumpsList xs ++ "]"
  | .dict kvs => "\x7b" ++ jsonDumpsDict kvs ++ "\x7d"
def jsonDumpsList : List PyVal → String
  | [] => ""
  | [x] => jsonDumps x
  | x :: rest => jsonDumps x ++ ", " ++ jsonDumpsList rest
def jsonDumpsDict : List (String × PyVal) → String
  | [] => ""
  | [(k, v)] => "\"" ++ k ++ "\": " ++ jsonDumps v
  | (k, v) :: rest => "\"" ++ k ++ "\": " ++ jsonDumps v ++ ", " ++ jsonDumpsDict rest
end

/-! ### `snowflake/core/_internal/utils.py` -/

/-- First character class of `UNQUOTED_CASE_INSENSITIVE` (`[_A-Za-z]`). -/
def isIdStart (c : Char) : Bool :=
  c = '_' || ('A' ≤ c && c ≤ 'Z') || ('a' ≤ c && c ≤ 'z')

/-- Tail character class of `UNQUOTED_CASE_INSENSITIVE` (`[_A-Za-z0-9$]`). -/
def isIdChar (c : Char) : Bool :=
  isIdStart c || ('0' ≤ c && c ≤ '9') || c = '$'

/-- Python `re.match` of `ALREADY_QUOTED = ^(".+")$` against `s`.
`.` does not cross a newline and `$` also matches just before one final
trailing newline, hence the two disjuncts. -/
def ALREADY_QUOTED_match (s : String) : Bool :=
  let core : List Char → Bool := fun l =>
    decide (2 < l.length) && (l.head? == some '"') && (l.getLast? == some '"')
      && ((l.drop 1).dropLast.all (fun c => c ≠ '\n'))
  core s.data || ((s.data.getLast? == some '\n') && core s.data.dropLast)

/-- Python `re.match` of `UNQUOTED_CASE_INSENSITIVE = ^([_A-Za-z]+[_A-Za-z0-9$]*)$`
(the language is: nonempty, head in `[_A-Za-z]`, tail in `[_A-Za-z0-9$]`,
with the same trailing-newline allowance for `$`). -/
def UNQUOTED_CASE_INSENSITIVE_match (s : String) : Bool :=
  let core : List Char → Bool := fun l =>
    match l with
    | [] => false
    | c :: rest => isIdStart c && rest.all isIdChar
  core s.data || ((s.data.getLast? == some '\n') && core s.data.dropLast)

/-- Python `str.replace('""', '')` (specialised left-to-right pass used by
`validate_quoted_name`). -/
def replaceQQ : List Char → List Char
  | '"' :: '"' :: rest => replaceQQ rest
  | c :: rest => c :: replaceQQ rest
  | [] => []

/-- `utils.validate_quoted_name`: a quoted name is rejected when the text
between the outer quotes contains a quote not written as `""`. -/
def validate_quoted_name (name : String) : Except String String :=
  if (replaceQQ ((name.data.drop 1).dropLast)).contains '"' then
    .error "Invalid Identifier"
  else
    .ok name

/-- `utils.escape_quotes`: double every double quote. -/
def escape_quotes (s : String) : String :=
  pyReplace s "\"" "\"\""

/-- `utils.normalize_name`; `ValueError` from `validate_quoted_name` is the
error case. -/
def normalize_name (name : String) : Except String String :=
  if ALREADY_QUOTED_match name then
    validate_quoted_name name
  else if UNQUOTED_CASE_INSENSITIVE_match name then
    .ok (escape_quotes (pyUpper name))
  else
    .ok ("\"" ++ escape_quotes name ++ "\"")

/-- `utils.unquote_name`. -/
def unquote_name (name : String) : String :=
  if 1 < name.data.length && name.data.head? == some '"'
      && name.data.getLast? == some '"' then
    ⟨(name.data.drop 1).dropLast⟩
  else name

/-- `utils.try_single_quote_value`.  Python indexes `value[0]` and
`value[-1]`, so an empty string raises `IndexError`. -/
def try_single_quote_value : PyVal → Except String String
  | .none => .ok ""
  | .str v =>
    if v = "" then .error "IndexError: string index out of range"
    else if v.data.head? == some '\'' && v.data.getLast? == some '\'' then
      .ok ("'" ++ pyReplace ⟨(v.data.drop 1).dropLast⟩ "'" "''" ++ "'")
    else
      .ok ("'" ++ pyReplace v "'" "''" ++ "'")
  | v => .ok (pyStr v)

/-- `utils.double_quote_name`. -/
def double_quote_name (name : String) : String :=
  if name = "" then name else "\"" ++ escape_quotes name ++ "\""

/-! ### `utils.validate_object_name` (the repository's validity notion for
resource names, `SNOWFLAKE_OBJECT_RE_PATTERN`) -/

/-- Head class of `SNOWFLAKE_UNQUOTED_ID_PATTERN` (`[a-zA-Z_]`). -/
def isUnqStart (c : Char) : Bool :=
  c = '_' || ('A' ≤ c && c ≤ 'Z') || ('a' ≤ c && c ≤ 'z')

/-- Tail class `[\w$]` = `[A-Za-z0-9_$]`. -/
def isUnqChar (c : Char) : Bool :=
  isUnqStart c || ('0' ≤ c && c ≤ '9') || c = '$'

/-- `([a-zA-Z_][\w$]{0,255})` as a whole-list predicate. -/
def isUnquotedId : List Char → Bool
  | [] => false
  | c :: rest => isUnqStart c && decide (rest.length ≤ 255) && rest.all isUnqChar

/-- Number of `([^"]|"")` units a quoted-identifier body parses into
(deterministic: a quote must pair as `""`). -/
def quotedBodyCount : List Char → Option Nat
  | [] => some 0
  | '"' :: '"' :: rest => (quotedBodyCount rest).map (· + 1)
  | '"' :: _ => Option.none
  | _ :: rest => (quotedBodyCount rest).map (· + 1)

/-- `("([^"]|""){1,255}")` as a whole-list predicate. -/
def isQuotedId (l : List Char) : Bool :=
  match l with
  | '"' :: rest =>
    rest.getLast? == some '"' &&
      (match quotedBodyCount rest.dropLast with
       | some n => decide (1 ≤ n) && decide (n ≤ 255)
       | Option.none => false)
  | _ => false

def isIdL (l : List Char) : Bool := isUnquotedId l || isQuotedId l

/-- All decompositions `l = a ++ '.' :: r`. -/
def dotSplits (l : List Char) : List (List Char × List Char) :=
  (List.range (l.length + 1)).filterMap fun i =>
    if l.get? i == some '.' then some (l.take i, l.drop (i + 1)) else Option.none

/-- Language of `^((ID\.){0,2}|(ID\.\.))ID$`: the forms `ID`, `ID.ID`,
`ID.ID.ID` and `ID..ID`. -/
def validObjectCore (l : List Char) : Bool :=
  isIdL l ||
    (dotSplits l).any fun p =>
      isIdL p.1 &&
        (isIdL p.2 ||
         (match p.2 with
          | '.' :: r2 => isIdL r2
          | _ => false) ||
         (dotSplits p.2).any fun q => isIdL q.1 && isIdL q.2)

/-- `utils.validate_object_name` succeeds (Python `$` again allows one
trailing newline). -/
def validate_object_name_ok (s : String) : Bool :=
  validObjectCore s.data
    || ((s.data.getLast? == some '\n') && validObjectCore s.data.dropLast)

/-! ### `bridge/rest_errors.py` -/

/-- A raised `RestError`: HTTP-like status, message and optional
`error_details` map. -/
structure RestErr where
  status : Nat
  msg : String
  details : Option PyDict
deriving Repr

def mkBadRequest (msg : String) (details : Option PyDict := Option.none) : RestErr :=
  ⟨400, msg, details⟩

def mkUnauthorized (msg : String) (details : Option PyDict := Option.none) : RestErr :=
  ⟨401, msg, details⟩

def mkForbidden (msg : String) (details : Option PyDict := Option.none) : RestErr :=
  ⟨403, msg, details⟩

def mkNotFound (msg : String) (details : Option PyDict := Option.none) : RestErr :=
  ⟨404, msg, details⟩

def mkConflict (msg : String) (details : Option PyDict := Option.none) : RestErr :=
  ⟨409, msg, details⟩

def mkInternalServerError (msg : String) (details : Option PyDict := Option.none) : RestErr :=
  ⟨500, msg, details⟩

def mkBadGateway (msg : String) (details : Option PyDict := Option.none) : RestErr :=
  ⟨502, msg, details⟩

def mkServiceUnavailable (msg : String) (details : Option PyDict := Option.none) : RestErr :=
  ⟨503, msg, details⟩

def mkGatewayTimeout (msg : String) (details : Option PyDict := Option.none) : RestErr :=
  ⟨504, msg, details⟩

/-- An exception escaping a translator: either a typed `RestError` or a
plain Python exception (`KeyError`, `IndexError`, `ValueError`,
`AttributeError`), which `SnowBridge.request` converts to an
`InternalServerError` envelope. -/
inductive PyErr where
  | rest (e : RestErr)
  | pyExc (kind msg : String)
deriving Repr

/-- Status code of the outward envelope `SnowBridge.request` builds for an
escaped exception. -/
def PyErr.status : PyErr → Nat
  | .rest e => e.status
  | .pyExc _ _ => 500

/-- Lift of `try_single_quote_value` into the exception model (its only
failure is Python `IndexError` on the empty string). -/
def tsqE (v : PyVal) : Except PyErr String :=
  match try_single_quote_value v with
  | .ok s => .ok s
  | .error m => .error (.pyExc "IndexError" m)

/-- Lift of `normalize_name` (its failure is a Python `ValueError`). -/
def normE (s : String) : Except PyErr String :=
  match normalize_name s with
  | .ok t => .ok t
  | .error m => .error (.pyExc "ValueError" m)

/-- Python `v.upper()` on a value expected to be a string
(`AttributeError` otherwise). -/
def pyUpperVal : PyVal → Except PyErr String
  | .str s => .ok (pyUpper s)
  | _ => .error (.pyExc "AttributeError" "upper")

/-- Python `v.lower()` on a value expected to be a string. -/
def pyLowerVal : PyVal → Except PyErr String
  | .str s => .ok (pyLower s)
  | _ => .error (.pyExc "AttributeError" "lower")

/-! ### `bridge/executor.py` -/

/-- `SnowExecute._construct_response` with `desired_properties = None`:
a single one-field `status` row collapses to the canonical success row;
anything else (including the empty list) passes through. -/
def construct_response (rows : List PyDict) : List PyDict :=
  match rows with
  | [r] =>
    if r.length == 1 && dcontains r "status" then
      [[("description", PyVal.str "successful")]]
    else [r]
  | _ => rows

/-- The backend oracle: what the engine cursor produces for one SQL
statement — raw rows, or an already-classified error (the classification
itself is modelled separately by `classifyConnException`). -/
def Backend := String → Except PyErr (List PyDict)

/-- `SnowExecute.execute` (no `desired_properties`). -/
def snowExecute (be : Backend) (sql : String) : Except PyErr (List PyDict) :=
  (be sql).map construct_response

/-- `execute(sql)[0]`: Python indexing of the first row (`IndexError` when
the result list is empty). -/
def firstRow (rows : List PyDict) : Except PyErr PyDict :=
  match rows with
  | r :: _ => .ok r
  | [] => .error (.pyExc "IndexError" "list index out of range")

/-- Result of running a translator: the statements handed to the executor,
in order, and the outcome. -/
structure ExecRes (α : Type) where
  trace : List String
  out : Except PyErr α
deriving Repr

/-- Execute one statement and return its first row (the ubiquitous
`return sql_str, self.snow_exec.execute(sql_str)[0]` pattern). -/
def runSqlFirst (be : Backend) (sql : String) : ExecRes PyDict :=
  match snowExecute be sql with
  | .error e => ⟨[sql], .error e⟩
  | .ok rows =>
    match firstRow rows with
    | .ok r => ⟨[sql], .ok r⟩
    | .error e => ⟨[sql], .error e⟩

/-- Native error-code constants from the external
`snowflake.connector.errorcode` module (the module is a dependency, not
part of this repository, so the classifier is parametric in them). -/
structure ErrorCodes where
  er_ocsp_url_info_missing : Int
  er_invalid_ssd : Int
  er_invalid_stage_fs : Int
  er_file_not_exists : Int
  er_failed_to_request : Int
  er_failed_to_upload_to_stage : Int
  er_failed_to_connect_to_db : Int

/-- Exceptions the connector can raise into `_execute_internal`, tagged by
their concrete class.  `errno`/`sqlstate`/`sfqid` carry the backend
diagnostics.  (`dataError` and `databaseError` are the `DatabaseError`
subclasses not named by an earlier `except` clause; `otherException` is
anything outside the connector hierarchy.) -/
inductive ConnException where
  | interfaceError (errno : Int) (msg sqlstate sfqid : String)
  | revocationCheckError (errno : Int) (msg sqlstate sfqid : String)
  | operationalError (errno : Int) (msg sqlstate sfqid : String)
  | integrityError (errno : Int) (msg sqlstate sfqid : String)
  | connInternalServerError (errno : Int) (msg sqlstate sfqid : String)
  | missingDependencyError (errno : Int) (msg sqlstate sfqid : String)
  | requestExceedMaxRetryError (errno : Int) (msg sqlstate sfqid : String)
  | internalError (errno : Int) (msg sqlstate sfqid : String)
  | notSupportedError (errno : Int) (msg sqlstate sfqid : String)
  | programmingError (errno : Int) (msg sqlstate sfqid : String)
  | dataError (errno : Int) (msg sqlstate sfqid : String)
  | databaseError (errno : Int) (msg sqlstate sfqid : String)
  | gatewayTimeoutError (errno : Int) (msg sqlstate sfqid : String)
  | serviceUnavailableError (errno : Int) (msg sqlstate sfqid : String)
  | forbiddenError (errno : Int) (msg sqlstate sfqid : String)
  | otherException (msg : String)

/-- The `error_details` dictionary built in every `except` clause. -/
def errDetails (errno : Int) (sql sqlstate sfqid : String) : PyDict :=
  [("errno", .int errno), ("query", .str sql),
   ("sqlstate", .str sqlstate), ("sfqid", .str sfqid)]

/-- `SnowExecute._execute_internal`: the chain of `except` clauses, in
source order, selected by `isinstance` against the connector hierarchy
(`RevocationCheckError <: OperationalError <: DatabaseError`,
`Integrity/Internal/NotSupported/Programming/DataError <: DatabaseError`,
the HTTP-ish errors subclass `Error` directly).  Returns the `RestError`
the clause raises, or `none` when the clause body falls through without
raising (which makes the executor treat the failed statement as a
success). -/
def classifyConnException (codes : ErrorCodes) (sql : String) :
    ConnException → Option RestErr
  | .interfaceError errno msg st id =>
    some (mkBadRequest msg (some (errDetails errno sql st id)))
  | .revocationCheckError errno msg st id =>
    if codes.er_ocsp_url_info_missing ≤ errno && errno ≤ codes.er_invalid_ssd then
      some (mkUnauthorized msg (some (errDetails errno sql st id)))
    else
      some (mkInternalServerError msg (some (errDetails errno sql st id)))
  | .operationalError errno msg st id =>
    if errno == codes.er_invalid_stage_fs || errno == codes.er_file_not_exists then
      some (mkBadRequest msg (some (errDetails errno sql st id)))
    else if errno == codes.er_failed_to_request
        || errno == codes.er_failed_to_upload_to_stage
        || errno == codes.er_failed_to_connect_to_db then
      some (mkBadGateway msg (some (errDetails errno sql st id)))
    else
      Option.none
  | .integrityError errno msg st id =>
    some (mkInternalServerError msg (some (errDetails errno sql st id)))
  | .connInternalServerError errno msg st id =>
    some (mkInternalServerError msg (some (errDetails errno sql st id)))
  | .missingDependencyError errno msg st id =>
    some (mkInternalServerError msg (some (errDetails errno sql st id)))
  | .requestExceedMaxRetryError errno msg st id =>
    some (mkInternalServerError msg (some (errDetails errno sql st id)))
  | .internalError errno msg st id =>
    some (mkInternalServerError msg (some (errDetails errno sql st id)))
  | .notSupportedError errno msg st id =>
    if errno == 2002 then some (mkConflict msg (some (errDetails errno sql st id)))
    else if errno == 2003 then some (mkNotFound msg (some (errDetails errno sql st id)))
    else some (mkBadRequest msg (some (errDetails errno sql st id)))
  | .programmingError errno msg st id =>
    if errno == 2002 then some (mkConflict msg (some (errDetails errno sql st id)))
    else if errno == 2003 then some (mkNotFound msg (some (errDetails errno sql st id)))
    else some (mkBadRequest msg (some (errDetails errno sql st id)))
  | .dataError errno msg st id =>
    some (mkUnauthorized msg (some (errDetails errno sql st id)))
  | .databaseError errno msg st id =>
    some (mkUnauthorized msg (some (errDetails errno sql st id)))
  | .gatewayTimeoutError errno msg st id =>
    some (mkGatewayTimeout msg (some (errDetails errno sql st id)))
  | .serviceUnavailableError errno msg st id =>
    some (mkServiceUnavailable msg (some (errDetails errno sql st id)))
  | .forbiddenError errno msg st id =>
    some (mkForbidden msg (some (errDetails errno sql st id)))
  | .otherException msg =>
    some (mkInternalServerError msg Option.none)

/-! ### `bridge/snow_bridge.py` — the request router -/

-- Each URL template of `SUPPORTED_RESOURCES` has the shape
-- `lit ("[^/]+" lit)* "(/[^/]+)*"` where every literal after the first
-- starts with `/`; a template is stored as its list of literals.  Matching
-- is Python `re.match` (anchored at the start, trailing text allowed, and
-- the final `(/[^/]+)*` can match zero groups).  Because `[^/]+` cannot
-- cross a `/` and the following literal starts with `/`, matching is
-- deterministic: a wildcard always extends to the next `/`.

/-- Match one template (given as its literal chunks) as a prefix of `s`. -/
def matchChunks : List (List Char) → List Char → Bool
  | [], _ => true
  | [l], s => l.isPrefixOf s
  | l :: rest, s =>
    if l.isPrefixOf s then
      let s2 := s.drop l.length
      let run := s2.takeWhile (fun c => c ≠ '/')
      !run.isEmpty && matchChunks rest (s2.drop run.length)
    else false

/-- `SUPPORTED_RESOURCES`, in its (order-significant) source order. -/
def SUPPORTED_RESOURCES : List (String × List String) :=
  [("tasks", ["/api/v2/databases/", "/schemas/", "/tasks"]),
   ("services", ["/api/v2/databases/", "/schemas/", "/services"]),
   ("imagerepositories", ["/api/v2/databases/", "/schemas/", "/image-repositories"]),
   ("compute-pools", ["/api/v2/compute-pools"]),
   ("tables", ["/api/v2/databases/", "/schemas/", "/tables"]),
   ("warehouses", ["/api/v2/warehouses"]),
   ("schemas", ["/api/v2/databases/", "/schemas"]),
   ("databases", ["/api/v2/databases"])]

/-- `SnowBridge._get_resource_name`: first template that matches. -/
def get_resource_name (path : String) : Option String :=
  SUPPORTED_RESOURCES.findSome? fun t =>
    if matchChunks (t.2.map String.data) path.data then some t.1 else Option.none

/-- `SnowBridge.request_dispatcher`, up to translator construction: pick
the resource, or raise `BadRequest("Invalid URL")` when nothing matches. -/
def request_dispatcher_route (path : String) : Except PyErr String :=
  match get_resource_name path with
  | some r => .ok r
  | Option.none => .error (.rest (mkBadRequest "Invalid URL"))

/-! ### `core/_common.py` -/

/-- `UNALTERABLE_PARAMETERS`. -/
def UNALTERABLE_PARAMETERS : List String := ["name", "tag"]

/-- `_common._is_an_update`: the parameter set minus the unalterable ones
is nonempty. -/
def is_an_update (parameters : List String) : Bool :=
  parameters.any (fun p => !UNALTERABLE_PARAMETERS.contains p)

/-! ### `bridge/resources/warehouse_resource.py` -/

/-- Python `v` used where a `str` is required (`TypeError` otherwise). -/
def pyValAsStr : PyVal → Except PyErr String
  | .str s => .ok s
  | _ => .error (.pyExc "TypeError" "expected str")

/-- `warehouse_prop_list["required"]`. -/
def warehouse_required : List String := ["name"]

/-- `warehouse_prop_list["optional"]`, in source order. -/
def warehouse_optional : List String :=
  ["warehouse_type", "warehouse_size", "wait_for_completion",
   "max_cluster_count", "min_cluster_count", "scaling_policy",
   "auto_suspend", "auto_resume", "initially_suspended",
   "resource_monitor", "comment", "enable_query_acceleration",
   "query_acceleration_max_scale_factor", "max_concurrency_level",
   "statement_queued_timeout_in_seconds", "statement_timeout_in_seconds"]

/-- `warehouse_prop_list["alter_warehouse_option"]`. -/
def alter_warehouse_option : List String :=
  ["max_cluster_count", "min_cluster_count", "auto_suspend", "auto_resume",
   "comment", "enable_query_acceleration", "max_concurrency_level",
   "statement_queued_timeout_in_seconds", "statement_timeout_in_seconds"]

/-- The canonical success row of a plain create-or-update ack. -/
def ignoredUpdateRow : PyDict :=
  [("description", .str "command ignored cause this is not an update")]

/-- `WarehouseResource.create_or_replace_warehouse`, statement
construction. -/
def create_or_replace_warehouse_sql (queryParams body : PyDict) :
    Except PyErr String := do
  let head ←
    match dlookup queryParams "createMode" with
    | some v => do
      let cm ← pyLowerVal v
      pure (if cm = "errorifexists" then "WAREHOUSE "
            else if cm = "ifnotexists" then "WAREHOUSE IF NOT EXISTS "
            else if cm = "orreplace" then "OR REPLACE WAREHOUSE "
            else "")
    | Option.none => pure "WAREHOUSE "
  if dcontains body "name" then
    let base := "CREATE " ++ head ++ pyStr (dget body "name") ++ " "
    warehouse_optional.foldlM (fun acc key =>
      if dcontains body key then
        if key = "comment" then do
          let q ← tsqE (dget body key)
          pure (acc ++ " COMMENT = " ++ q ++ ", ")
        else
          pure (acc ++ pyUpper key ++ " = " ++ pyStr (dget body key) ++ " ")
      else pure acc) base
  else
    throw (.rest (mkBadRequest "Name is a required field for Creating a Warehouse"))

/-- `WarehouseResource.create_or_replace_warehouse`, including execution. -/
def create_or_replace_warehouse (queryParams body : PyDict) (be : Backend) :
    ExecRes (String × PyDict) :=
  match create_or_replace_warehouse_sql queryParams body with
  | .error e => ⟨[], .error e⟩
  | .ok sql =>
    let r := runSqlFirst be sql
    ⟨r.trace, r.out.map (fun row => (sql, row))⟩

/-- `WarehouseResource.update_and_set_warehouse`, statement
construction. -/
def update_and_set_warehouse_sql (warehouseName : String) (body : PyDict) :
    Except PyErr String := do
  if ¬ dcontains body "name" then
    throw (.rest (mkBadRequest "name is a required field for Updating a Warehouse"))
  let nm ← pyValAsStr (dget body "name")
  let nrm ← normE nm
  if warehouseName ≠ nrm then
    throw (.rest (mkBadRequest
      "Property name not consistent. Use rename if you want to change warehouse's name."))
  if ¬ is_an_update (dkeys body) then
    throw (.rest (mkBadRequest "Can not alter warehouse set with no parameters"))
  let base := "ALTER WAREHOUSE " ++ pyStr (dget body "name") ++ " " ++ "SET "
  warehouse_optional.foldlM (fun acc key =>
    if dcontains body key then do
      let v := dget body key
      let q ← if key = "comment" && pyTruthy v then tsqE v else pure (pyStr v)
      pure (acc ++ pyUpper key ++ " = " ++ q ++ " ")
    else pure acc) base

/-- `WarehouseResource.update_and_unset_warehouse`, statement construction.
Python computes `unset_parameters` as a `set` difference whose iteration
order is unspecified; the model keeps the declaration order of
`alter_warehouse_option` (no theorem depends on the order of names inside
the single UNSET statement). -/
def update_and_unset_warehouse_sql (warehouseName : String) (body : PyDict) :
    Except PyErr String := do
  if ¬ dcontains body "name" then
    throw (.rest (mkBadRequest "name is a required field for Updating a Warehouse"))
  let nm ← pyValAsStr (dget body "name")
  let nrm ← normE nm
  if warehouseName ≠ nrm then
    throw (.rest (mkBadRequest "Property name not consistent."))
  if ¬ is_an_update (dkeys body) then
    throw (.rest (mkBadRequest "Can not alter warehouse unset with no parameters"))
  let unset_parameters := alter_warehouse_option.filter (fun k => ¬ dcontains body k)
  pure ("ALTER WAREHOUSE " ++ pyStr (dget body "name") ++ " " ++ "UNSET "
        ++ String.intercalate ", " (unset_parameters.map pyUpper))

/-- The existence loop of `create_or_update_warehouse`:
`self._prop["name"].upper() == exist_warehouse["name"].upper()`. -/
def warehouseExists (nameV : PyVal) (rows : List PyDict) : Except PyErr Bool :=
  match rows with
  | [] => .ok false
  | r :: rest => do
    let a ← pyUpperVal nameV
    let b ← pyUpperVal (dget r "name")
    if a == b then pure true else warehouseExists nameV rest

/-- `WarehouseResource.create_or_update_warehouse` (the PUT handler): SHOW
to decide existence; when present and the body is not an update, succeed
with the ignored-command row; when present and an update, run
`update_and_set_warehouse` then `update_and_unset_warehouse` (in that
order); when absent, fall back to `create_or_replace_warehouse`.  Result is
the returned `(sql, row)` pair. -/
def create_or_update_warehouse (queryParams body : PyDict) (be : Backend) :
    ExecRes (String × PyDict) :=
  match dlookup body "name" with
  | Option.none => ⟨[], .error (.pyExc "KeyError" "name")⟩
  | some nameV =>
    let showSql := "SHOW WAREHOUSES LIKE '" ++ pyStr nameV ++ "'"
    match snowExecute be showSql with
    | .error e => ⟨[showSql], .error e⟩
    | .ok showRows =>
      match warehouseExists nameV showRows with
      | .error e => ⟨[showSql], .error e⟩
      | .ok true =>
        match pyValAsStr nameV >>= normE with
        | .error e => ⟨[showSql], .error e⟩
        | .ok whName =>
          if ¬ is_an_update (dkeys body) then
            ⟨[showSql], .ok ("", ignoredUpdateRow)⟩
          else
            match update_and_set_warehouse_sql whName body with
            | .error e => ⟨[showSql], .error e⟩
            | .ok setSql =>
              let r1 := runSqlFirst be setSql
              match r1.out with
              | .error e => ⟨showSql :: r1.trace, .error e⟩
              | .ok _ =>
                match update_and_unset_warehouse_sql whName body with
                | .error e => ⟨showSql :: r1.trace, .error e⟩
                | .ok unsetSql =>
                  let r2 := runSqlFirst be unsetSql
                  ⟨showSql :: (r1.trace ++ r2.trace),
                   r2.out.map (fun row => (unsetSql, row))⟩
      | .ok false =>
        match create_or_replace_warehouse_sql queryParams body with
        | .error e => ⟨[showSql], .error e⟩
        | .ok createSql =>
          let r := runSqlFirst be createSql
          ⟨showSql :: r.trace, r.out.map (fun row => (createSql, row))⟩

/-! ### Further Python-access helpers -/

/-- Python `d[k]` (`KeyError` when absent). -/
def dgetItem (d : PyDict) (k : String) : Except PyErr PyVal :=
  match dlookup d k with
  | some v => .ok v
  | Option.none => .error (.pyExc "KeyError" k)

/-- Python `v[k]` subscription of a value expected to be a dict. -/
def subscript (v : PyVal) (k : String) : Except PyErr PyVal :=
  match v with
  | .dict d => dgetItem d k
  | _ => .error (.pyExc "TypeError" "value is not subscriptable")

/-- Python `v is None`. -/
def isNoneV : PyVal → Bool
  | .none => true
  | _ => false

/-- Python `len(v)` on containers and strings. -/
def pyLen : PyVal → Except PyErr Nat
  | .dict d => .ok d.length
  | .list l => .ok l.length
  | .str s => .ok s.data.length
  | _ => .error (.pyExc "TypeError" "object has no len")

/-- A value expected to be a list of strings (iteration with `str`
methods applied to the elements). -/
def pyListOfStrs (v : PyVal) : Except PyErr (List String) :=
  match v with
  | .list xs => xs.mapM pyValAsStr
  | _ => .error (.pyExc "TypeError" "expected a list of str")

/-- A value expected to be a dict. -/
def pyValAsDict (v : PyVal) : Except PyErr PyDict :=
  match v with
  | .dict d => .ok d
  | _ => .error (.pyExc "TypeError" "expected a dict")

/-! ### `bridge/resources/database_resource.py` -/

/-- `database_prop_list["required"]`. -/
def database_required : List String := ["name"]

/-- The read-only database properties rejected by `create_or_alter_db`. -/
def db_read_only_props : List String :=
  ["created_on", "is_default", "is_current", "origin", "owner", "options",
   "dropped_on", "owner_role_type"]

/-- The string-typed database parameters that are single-quoted. -/
def db_string_props : List String := ["comment", "default_ddl_collation"]

/-- The property loop of `DatabaseResource.create_or_alter_db`: iterate the
body in insertion order; skip values equal to the current ones and the
name; reject read-only properties; otherwise emit `prop = value` clauses
(string parameters single-quoted when truthy). -/
def dbCoaLoop (current : PyDict) : PyDict → Except PyErr (List String)
  | [] => .ok []
  | (k, v) :: rest =>
    if pyEq v (dget current k) then dbCoaLoop current rest
    else if k = "name" then dbCoaLoop current rest
    else if db_read_only_props.contains k then
      .error (.rest (mkBadRequest
        ("`" ++ k ++ "` of a database can't be changed as it is read-only")))
    else do
      let q ← if db_string_props.contains k && pyTruthy v then tsqE v
              else pure (pyStr v)
      let tail ← dbCoaLoop current rest
      pure ((k ++ " = " ++ q) :: tail)

/-- `DatabaseResource.create_or_alter_db` on an existing database:
`current` is the dictionary the `desc_db` step returned.  Builds
`coa_sql`, appends `comment=null` when the body has no (non-null) comment,
returns success immediately when only the header remains, and otherwise
executes the single space-joined statement. -/
def create_or_alter_db_existing (dbName : String) (body current : PyDict)
    (be : Backend) : ExecRes (String × PyDict) :=
  if ¬ dcontains body "name" then
    ⟨[], .error (.rest (mkBadRequest "Required property name is missing"))⟩
  else
    match pyValAsStr (dget body "name") >>= normE with
    | .error e => ⟨[], .error e⟩
    | .ok n =>
      if dbName ≠ n then
        ⟨[], .error (.rest (mkBadRequest
          ("Database names are not consistent, " ++ dbName ++ " != "
            ++ pyStr (dget body "name") ++ ".")))⟩
      else
        match dbCoaLoop current body with
        | .error e => ⟨[], .error e⟩
        | .ok clauses =>
          let clauses :=
            if ¬ dcontains body "comment" || isNoneV (dget body "comment") then
              clauses ++ ["comment=null"]
            else clauses
          let coa_sql := ("ALTER DATABASE " ++ dbName ++ " SET") :: clauses
          if coa_sql.length == 1 then ⟨[], .ok ("", [])⟩
          else
            let s := String.intercalate " " coa_sql
            let r := runSqlFirst be s
            ⟨r.trace, r.out.map (fun row => (s, row))⟩

/-! ### `bridge/resources/task_resource.py` -/

/-- `task_prop_list["required"]`. -/
def task_required : List String := ["name", "definition"]

/-- `task_prop_list["optional"]`, in source order. -/
def task_optional : List String :=
  ["warehouse", "schedule", "comment", "config", "session_parameters",
   "predecessors", "user_task_managed_initial_warehouse_size",
   "user_task_timeout_ms", "condition", "allow_overlapping_execution",
   "error_integration", "suspend_task_after_num_failures"]

/-- Modelled from the external helper
`snowflake.snowpark._internal.utils.parse_table_name`: split a qualified
name on dots that are outside double-quoted sections. -/
def splitDotsQ (inq : Bool) (cur : List Char) : List Char → List (List Char)
  | [] => [cur.reverse]
  | c :: rest =>
    if c = '"' then splitDotsQ (!inq) (c :: cur) rest
    else if c = '.' && !inq then cur.reverse :: splitDotsQ false [] rest
    else splitDotsQ inq (c :: cur) rest

def parse_table_name (s : String) : List String :=
  (splitDotsQ false [] s.data).map (fun l => ⟨l⟩)

/-- `parse_table_name(pred)[-1]` (the split is never empty). -/
def parse_table_name_last (s : String) : String :=
  (parse_table_name s).getLastD ""

/-- Modelled from the external helper
`snowflake.snowpark._internal.utils.is_single_quoted`. -/
def is_single_quoted (s : String) : Bool :=
  2 ≤ s.data.length && s.data.head? == some '\''
    && s.data.getLast? == some '\''

/-- The inner `_set_predecessors` of `_create_or_alter_task`: current
predecessors not desired any more are collected into one `REMOVE AFTER`
statement, and (unless the desired list is absent/empty) one `ADD AFTER`
statement for the desired list is always appended. -/
def set_predecessors (taskName : String) (body : PyDict)
    (currentPreds : List String) : Except PyErr (List String) := do
  let remove_all :=
    ¬ dcontains body "predecessors" || ¬ pyTruthy (dget body "predecessors")
  let part1 ←
    if currentPreds.isEmpty then pure []
    else do
      let removeList ←
        if remove_all then pure currentPreds
        else do
          let bodyPreds ← pyListOfStrs (dget body "predecessors")
          let uppers := bodyPreds.map pyUpper
          pure (currentPreds.filter
            (fun pred => ¬ uppers.contains (parse_table_name_last pred)))
      if removeList.isEmpty then pure []
      else pure ["ALTER TASK " ++ taskName ++ " REMOVE AFTER "
                  ++ String.intercalate "," removeList]
  if remove_all then pure part1
  else do
    let bodyPreds ← pyListOfStrs (dget body "predecessors")
    pure (part1 ++ ["ALTER TASK " ++ taskName ++ " ADD AFTER "
                     ++ String.intercalate "," bodyPreds])

/-- The inner `_set_parameters` of `_create_or_alter_task`.  Iterates the
union of remote and desired parameter names (a Python `set`, whose order is
unspecified; the model takes remote order first, then new names) and
returns the names to UNSET and the `name = value` pairs to SET. -/
def set_parameters (body : PyDict) (remote : PyDict) :
    Except PyErr (List String × List String) := do
  let unset_all := ¬ dcontains body "session_parameters"
  let params_to_set ←
    if unset_all then pure ([] : PyDict)
    else pyValAsDict (dget body "session_parameters")
  let names := dkeys remote
      ++ (dkeys params_to_set).filter (fun k => ¬ (dkeys remote).contains k)
  names.foldlM
    (fun (acc : List String × List String) param => do
      if unset_all || (¬ params_to_set.isEmpty && ¬ dcontains params_to_set param) then
        pure (acc.1 ++ [param], acc.2)
      else if ¬ params_to_set.isEmpty && dcontains params_to_set param
          && ¬ pyEq (dget remote param) (dget params_to_set param) then do
        let q ← tsqE (dget params_to_set param)
        pure (acc.1, acc.2 ++ [param ++ " = " ++ q])
      else
        pure acc)
    ([], [])

/-- Accumulator of the property loop of `_create_or_alter_task`:
statements emitted directly, names for the final UNSET statement, pairs for
the final SET statement. -/
structure TaskAcc where
  sql : List String
  unsetL : List String
  setL : List String
deriving Repr

/-- Group of scalar task properties handled by the shared
set/unset branch. -/
def task_scalar_group : List String :=
  ["comment", "warehouse", "allow_overlapping_execution",
   "error_integration", "suspend_task_after_num_failures"]

/-- One iteration of the property loop of `_create_or_alter_task` for a
given `key`.  (`user_task_timeout_ms` matches no branch of the source
`if`/`elif` chain and is silently ignored.) -/
def taskStep (taskName taskOriginalName : String) (body desc : PyDict)
    (st : TaskAcc) (key : String) : Except PyErr TaskAcc := do
  if key = "predecessors" then do
    let cur ← dgetItem desc "predecessors"
    let curList ← pyListOfStrs cur
    let stmts ← set_predecessors taskName body curList
    pure { st with sql := st.sql ++ stmts }
  else if key = "session_parameters" then do
    let remoteV ← dgetItem desc "session_parameters"
    let remote ← pyValAsDict remoteV
    let (us, ss) ← set_parameters body remote
    pure { st with unsetL := st.unsetL ++ us, setL := st.setL ++ ss }
  else if key = "condition" then
    if ¬ dcontains body key then
      pure { st with sql := st.sql
              ++ ["ALTER TASK " ++ taskName ++ " MODIFY WHEN 1=1"] }
    else
      pure { st with sql := st.sql
              ++ ["ALTER TASK " ++ taskName ++ " MODIFY WHEN "
                   ++ pyStr (dget body key)] }
  else if key = "definition" then
    if ¬ dcontains body key then
      throw (.rest (mkBadRequest
        "Definition needs to be set for an existing resource."))
    else if ¬ pyEq (dget body key) (dget desc key) then
      pure { st with sql := st.sql
              ++ ["ALTER TASK " ++ taskName ++ " MODIFY AS "
                   ++ pyStr (dget body key)] }
    else pure st
  else if key = "schedule" then
    if ¬ dcontains body key then
      pure { st with unsetL := st.unsetL ++ [key] }
    else do
      let sched := dget body key
      let ty ← subscript sched "schedule_type"
      if pyEq ty (.str "MINUTES_TYPE") then do
        let minutes ← subscript sched "minutes"
        pure { st with setL := st.setL
                ++ ["SCHEDULE = '" ++ pyStr minutes ++ " MINUTE'"] }
      else do
        let n ← pyLen sched
        if n == 3 then do
          let expr ← subscript sched "cron_expr"
          let tz ← subscript sched "timezone"
          pure { st with setL := st.setL
                  ++ ["SCHEDULE = 'USING CRON " ++ pyStr expr ++ " "
                       ++ pyStr tz ++ "'"] }
        else pure st
  else if key = "config" then
    if ¬ pyEq (dget desc key) (dget body key) then
      if ¬ pyTruthy (dget body key) then
        pure { st with unsetL := st.unsetL ++ ["config"] }
      else do
        let q ← tsqE (.str (jsonDumps (dget body key)))
        pure { st with setL := st.setL ++ ["CONFIG = " ++ q] }
    else pure st
  else if task_scalar_group.contains key then
    if isNoneV (dget body key) then
      if ¬ isNoneV (dget desc key) then
        pure { st with unsetL := st.unsetL ++ [key] }
      else pure st
    else if ¬ pyEq (dget body key) (dget desc key) then do
      let v := dget body key
      let q ← if key = "comment" || key = "error_integration" then tsqE v
              else pure (pyStr v)
      pure { st with setL := st.setL ++ [pyUpper key ++ " = " ++ q] }
    else pure st
  else if key = "user_task_managed_initial_warehouse_size" then
    if ¬ pyEq (dget body key) (dget desc key) then
      if dcontains body key then
        throw (.rest (mkBadRequest
          "Managed Warehouse cannot be changed on an existing resource"))
      else pure st
    else pure st
  else if key = "name" then do
    let nm ← pyValAsStr (dget body key)
    let n1 ← normE nm
    let n2 ← normE taskOriginalName
    if n1 ≠ n2 then
      throw (.rest (mkBadRequest
        "Rename is not supported with the create_or_update API."))
    else pure st
  else
    pure st

/-- The full statement plan (`coa_sql`) of `_create_or_alter_task` on an
existing task: the property loop over `optional ++ required`, then the
UNSET statement (if any names were collected), then the SET statement (if
any pairs were collected). -/
def task_coa_plan (taskName taskOriginalName : String) (body desc : PyDict) :
    Except PyErr (List String) := do
  let acc ← (task_optional ++ task_required).foldlM
    (taskStep taskName taskOriginalName body desc) ⟨[], [], []⟩
  let withUnset :=
    if ¬ acc.unsetL.isEmpty then
      acc.sql ++ [pyStrip ("ALTER TASK " ++ taskName ++ " UNSET "
                    ++ String.intercalate "," acc.unsetL)]
    else acc.sql
  let withSet :=
    if ¬ acc.setL.isEmpty then
      withUnset ++ [pyStrip ("ALTER TASK " ++ taskName ++ " SET "
                      ++ String.intercalate "," acc.setL)]
    else withUnset
  pure withSet

/-- The serial execution loop at the end of `_create_or_alter_task`: each
statement in order; a `RestError` from any statement is wrapped into an
`InternalServerError` and later statements do not run. -/
def runTaskQueries (be : Backend) : List String → ExecRes Unit
  | [] => ⟨[], .ok ()⟩
  | q :: rest =>
    match snowExecute be q with
    | .error (.rest e) =>
      ⟨[q], .error (.rest (mkInternalServerError
        ("Could not successfully put the resource on Snowflake. " ++ e.msg)
        e.details))⟩
    | .error pe => ⟨[q], .error pe⟩
    | .ok _ =>
      let r := runTaskQueries be rest
      ⟨q :: r.trace, r.out⟩

/-- Python `str(coa_sql)` for the success return value. -/
def strOfStrList (l : List String) : String :=
  pyRepr (.list (l.map .str))

/-- `TaskResource._create_task`, statement construction. -/
def create_task_sql (dbName schemaName : String) (queryParams body : PyDict) :
    Except PyErr String := do
  let head ←
    if dcontains queryParams "createMode" then do
      let cm := dget queryParams "createMode"
      if pyEq cm (.str "orReplace") then pure "OR REPLACE TASK "
      else if pyEq cm (.str "ifNotExists") then pure "TASK IF NOT EXISTS "
      else if pyEq cm (.str "errorIfExists") || ¬ pyTruthy cm then pure "TASK "
      else throw (.rest (mkBadRequest
        ("Unsupported createMode mentioned " ++ pyStr cm)))
    else pure "TASK "
  let nmV ← dgetItem body "name"
  let nm ← pyValAsStr nmV
  let n ← normE nm
  let base := "CREATE " ++ head ++ dbName ++ "." ++ schemaName ++ "." ++ n ++ " "
  let base :=
    if dcontains body "warehouse" then
      base ++ "WAREHOUSE=" ++ pyStr (dget body "warehouse") ++ ", "
    else if dcontains body "user_task_managed_initial_warehouse_size" then
      base ++ "USER_TASK_MANAGED_INITIAL_WAREHOUSE_SIZE= '"
        ++ pyStr (dget body "user_task_managed_initial_warehouse_size") ++ "', "
    else base
  let base ←
    match dlookup body "schedule" with
    | some sched =>
      if isNoneV sched then pure base
      else do
        let n ← pyLen sched
        if n == 2 then do
          let m ← subscript sched "minutes"
          pure (base ++ "SCHEDULE = '" ++ pyStr m ++ " MINUTE'")
        else if n == 3 then do
          let expr ← subscript sched "cron_expr"
          let tz ← subscript sched "timezone"
          pure (base ++ "SCHEDULE = 'USING CRON " ++ pyStr expr ++ " "
                  ++ pyStr tz ++ "'")
        else pure base
    | Option.none => pure base
  let base :=
    if pyTruthy (dget body "allow_overlapping_execution") then
      base ++ "ALLOW_OVERLAPPING_EXECUTION = "
        ++ pyStr (dget body "allow_overlapping_execution") ++ ", "
    else base
  let base :=
    if dcontains body "user_task_timeout_ms" then
      base ++ "USER_TASK_TIMEOUT_MS = "
        ++ pyStr (dget body "user_task_timeout_ms") ++ ", "
    else base
  let base :=
    if dcontains body "suspend_task_after_num_failures" then
      base ++ "SUSPEND_TASK_AFTER_NUM_FAILURES = "
        ++ pyStr (dget body "suspend_task_after_num_failures") ++ ", "
    else base
  let base :=
    if dcontains body "error_integration" then
      base ++ "ERROR_INTEGRATION = "
        ++ pyStr (dget body "error_integration") ++ ", "
    else base
  let base ←
    if dcontains body "comment" then do
      let q ← tsqE (dget body "comment")
      pure (base ++ " COMMENT = " ++ q ++ ", ")
    else pure base
  let base ←
    if dcontains body "config" then do
      let q ← tsqE (.str (jsonDumps (dget body "config")))
      pure (base ++ " CONFIG = " ++ q ++ ", ")
    else pure base
  let base ←
    if dcontains body "session_parameters" then do
      let sp ← pyValAsDict (dget body "session_parameters")
      sp.foldlM
        (fun acc kv => do
          let v : PyVal :=
            match kv.2 with
            | .str s =>
              if ¬ is_single_quoted s then .str ("'" ++ pyReplace s "'" "''" ++ "'")
              else .str s
            | other => other
          let q ← tsqE v
          pure (acc ++ kv.1 ++ " = " ++ q ++ ", "))
        base
    else pure base
  let base := pyStripChars "," (pyStrip base)
  let base ←
    if dcontains body "predecessors" && pyTruthy (dget body "predecessors") then do
      let preds ← pyListOfStrs (dget body "predecessors")
      let newPreds ← preds.mapM fun pred =>
        match parse_table_name pred with
        | [p0] => Except.ok (dbName ++ "." ++ schemaName ++ "." ++ p0)
        | [p0, p1] => Except.ok (dbName ++ "." ++ p0 ++ "." ++ p1)
        | [_, _, _] => Except.ok pred
        | _ => Except.error (PyErr.pyExc "ValueError"
            ("Task predecessor " ++ pred ++ " has a wrong format."))
      pure (base ++ " AFTER " ++ String.intercalate "," newPreds ++ " ")
    else pure base
  let base :=
    if dcontains body "condition" then
      base ++ " WHEN " ++ pyStr (dget body "condition") ++ " "
    else base
  let base :=
    if dcontains body "definition" then
      base ++ " AS " ++ pyStr (dget body "definition") ++ " "
    else base
  pure base

/-- `TaskResource._create_task`, including execution. -/
def create_task (dbName schemaName : String) (queryParams body : PyDict)
    (be : Backend) : ExecRes (String × PyDict) :=
  match create_task_sql dbName schemaName queryParams body with
  | .error e => ⟨[], .error e⟩
  | .ok sql =>
    let r := runSqlFirst be sql
    ⟨r.trace, r.out.map (fun row => (sql, row))⟩

/-- The canonical success row returned for a batch of statements. -/
def successRow : PyDict := [("description", .str "successful")]

/-- `TaskResource._create_or_alter_task`: required-property check, then
either delegate to `_create_task` (the describe step reported not-found,
`current = none`) or build and run the reconciliation plan against the
describe result `current`. -/
def create_or_alter_task (dbName schemaName taskOriginalName : String)
    (queryParams body : PyDict) (current : Option PyDict) (be : Backend) :
    ExecRes (String × PyDict) :=
  if ¬ dcontains body "name" then
    ⟨[], .error (.rest (mkBadRequest "Required Property name is missing"))⟩
  else if ¬ dcontains body "definition" then
    ⟨[], .error (.rest (mkBadRequest "Required Property definition is missing"))⟩
  else
    match current with
    | Option.none => create_task dbName schemaName queryParams body be
    | some desc =>
      let taskName := dbName ++ "." ++ schemaName ++ "." ++ taskOriginalName
      match task_coa_plan taskName taskOriginalName body desc with
      | .error e => ⟨[], .error e⟩
      | .ok plan =>
        let r := runTaskQueries be plan
        ⟨r.trace, r.out.map (fun _ => (strOfStrList plan, successRow))⟩

/-! ### `bridge/resources/table_resource.py` -/

/-- Python `pat in s` substring test. -/
def isSubstrOf (pat s : List Char) : Bool :=
  (List.range (s.length + 1)).any (fun i => pat.isPrefixOf (s.drop i))

/-- `table_resource.normalize_datatype`.  Note the source line
`if datatype in ("VARBINARY")` tests substring membership in the *string*
`"VARBINARY"` (the parentheses do not build a tuple). -/
def normalize_datatype (datatype : String) : String :=
  let d := pyReplace (pyUpper datatype) " " ""
  if ["INT", "INTEGER", "BIGINT", "SMALLINT", "TINYINT", "BYTEINT",
      "NUMBER"].contains d then "NUMBER(38,0)"
  else if ["DOUBLE", "DOUBLEPRECISION", "REAL"].contains d then "FLOAT"
  else if ["STRING", "TEXT", "VARCHAR"].contains d then "VARCHAR(16777216)"
  else if ["CHAR", "CHARACTER"].contains d then "VARCHAR(1)"
  else if isSubstrOf d.data "VARBINARY".data then "BINARY"
  else
    pyReplace (pyReplace (pyReplace (pyReplace d "DECIMAL" "NUMBER")
      "NUMERIC" "NUMBER") "STRING" "VARCHAR") "TEXT" "VARCHAR"

/-- Lowercase hex digit, as in `SYSTEM_NAME_PATTERN`. -/
def isHexL (c : Char) : Bool :=
  ('0' ≤ c && c ≤ '9') || ('a' ≤ c && c ≤ 'f')

/-- Consume exactly `n` hex digits. -/
def consumeHex : Nat → List Char → Option (List Char)
  | 0, l => some l
  | n + 1, c :: l => if isHexL c then consumeHex n l else Option.none
  | _ + 1, [] => Option.none

/-- Consume a literal chunk. -/
def consumeLit (lit l : List Char) : Option (List Char) :=
  if lit.isPrefixOf l then some (l.drop lit.length) else Option.none

/-- `table_resource.match_sys_name`: a falsy name counts as
system-generated; otherwise `re.match` (prefix semantics) against
`"SYS_CONSTRAINT_<8>-<4>-<4>-<4>-<12>"` with lowercase hex groups. -/
def match_sys_name (name : String) : Bool :=
  if name = "" then true
  else
    (do
      let l1 ← consumeLit "\"SYS_CONSTRAINT_".data name.data
      let l2 ← consumeHex 8 l1
      let l3 ← consumeLit ['-'] l2
      let l4 ← consumeHex 4 l3
      let l5 ← consumeLit ['-'] l4
      let l6 ← consumeHex 4 l5
      let l7 ← consumeLit ['-'] l6
      let l8 ← consumeHex 4 l7
      let l9 ← consumeLit ['-'] l8
      let l10 ← consumeHex 12 l9
      consumeLit ['"'] l10).isSome

/-- Normalize a `column_names` value: each element is a `str` run through
`normalize_name`. -/
def normNames (v : PyVal) : Except PyErr (List String) := do
  let ss ← pyListOfStrs v
  ss.mapM normE

/-- `table_resource.primary_key_to_sql`. -/
def primary_key_to_sql (pk : PyDict) : Except PyErr String := do
  let cn := dget pk "column_names"
  if pyTruthy cn then do
    let cols ← normNames cn
    if ¬ cols.isEmpty then
      pure (" primary key (" ++ String.intercalate "," cols ++ ")")
    else pure ""
  else pure ""

/-- `table_resource.unique_key_to_sql`. -/
def unique_key_to_sql (pk : PyDict) : Except PyErr String := do
  let cn := dget pk "column_names"
  if pyTruthy cn then do
    let cols ← normNames cn
    if ¬ cols.isEmpty then
      pure (" unique (" ++ String.intercalate "," cols ++ ")")
    else pure ""
  else pure ""

/-- `table_resource.constraint_to_sql`. -/
def constraint_to_sql (c : PyVal) : Except PyErr String := do
  let d ← pyValAsDict c
  let ct := dget d "constraint_type"
  let cname := dget d "name"
  let cnameSql ←
    if pyTruthy cname then do
      let s ← pyValAsStr cname
      let n ← normE s
      pure (" constraint " ++ n)
    else pure ""
  if pyEq ct (.str "PRIMARY KEY") then do
    let x ← primary_key_to_sql d
    pure (cnameSql ++ x)
  else if pyEq ct (.str "UNIQUE") then do
    let x ← unique_key_to_sql d
    pure (cnameSql ++ x)
  else throw (.rest (mkBadRequest
    ("Wrong constraint type '" ++ pyStr ct ++ "'")))

/-- `table_resource.name_value_to_sql`. -/
def name_value_to_sql (prop_name : String) (value : PyVal)
    (use_equal quote_value : Bool) : Except PyErr String := do
  let equal := if use_equal then "=" else " "
  if quote_value then do
    let q ← tsqE value
    pure (if q = "" then "" else " " ++ prop_name ++ equal ++ q)
  else
    pure (if ¬ pyTruthy value then ""
          else " " ++ prop_name ++ equal ++ pyStr value)

/-- `table_resource.column_to_sql` (the f-string's literal spaces between
the optional pieces are reproduced exactly). -/
def column_to_sql (cv : PyVal) : Except PyErr String := do
  let c ← pyValAsDict cv
  let nameV ← dgetItem c "name"
  let nameS ← pyValAsStr nameV
  let nrm ← normE nameS
  let datatype := dget c "datatype"
  let nullable := dget c "nullable"
  let collate := dget c "collate"
  let dflt := dget c "default"
  let autoincrement := dget c "autoincrement"
  let aStart := dget c "autoincrement_start"
  let aInc := dget c "autoincrement_increment"
  let constraint := dget c "constraint"
  let comment := dget c "comment"
  let collateSql ← name_value_to_sql "collate" collate false true
  let consSql ←
    if ¬ isNoneV constraint then constraint_to_sql constraint else pure ""
  pure (nrm ++ " " ++ pyStr datatype
    ++ (if ¬ pyTruthy nullable then " not null" else "")
    ++ collateSql
    ++ (if ¬ isNoneV dflt then " default" else "") ++ " "
    ++ (if ¬ isNoneV dflt then pyStr dflt else "")
    ++ (if pyTruthy autoincrement then " autoincrement" else "") ++ " "
    ++ (if ¬ isNoneV aStart then "start " ++ pyStr aStart else "") ++ " "
    ++ (if pyTruthy aInc then "increment " ++ pyStr aInc else "")
    ++ consSql
    ++ (if pyTruthy comment then " comment '" ++ pyStr comment ++ "'" else ""))

/-- A truthy value iterated as a Python list (`TypeError` otherwise). -/
def pyValAsList (v : PyVal) : Except PyErr (List PyVal) :=
  match v with
  | .list xs => .ok xs
  | _ => .error (.pyExc "TypeError" "expected a list")

/-- `table_resource.table_to_sql` (the stubbed
`stage_file_format_to_sql`/`get_options_statement` helpers return `""` in
the source and are inlined as such; the f-string's literal spaces and the
newline after the stage-file-format slot are reproduced). -/
def table_to_sql (t : PyDict) : Except PyErr String := do
  let columns := dget t "columns"
  let constraints := dget t "constraints"
  let cluster_by := dget t "cluster_by"
  if pyTruthy columns || pyTruthy constraints then do
    let consList ←
      if pyTruthy constraints then do
        let cs ← pyValAsList constraints
        cs.mapM constraint_to_sql
      else pure []
    let constraint_sql := String.intercalate "," consList
    let colsSql ←
      if pyTruthy columns then do
        let cl ← pyValAsList columns
        let parts ← cl.mapM column_to_sql
        pure (String.intercalate "," parts)
      else pure ""
    let columns_sql := "(" ++ colsSql ++ " "
      ++ (if constraint_sql ≠ "" then "," else "") ++ constraint_sql ++ ")"
    let clusterSql ←
      if pyTruthy cluster_by then do
        let cb ← pyListOfStrs cluster_by
        pure ("cluster by(" ++ String.intercalate "," cb ++ ")")
      else pure ""
    let eseSql ← name_value_to_sql "enable_schema_evolution"
      (dget t "enable_schema_evolution") true false
    let drtSql ← name_value_to_sql "data_retention_time_in_days"
      (dget t "data_retention_time_in_days") true false
    let mdetSql ← name_value_to_sql "max_data_extension_time_in_days"
      (dget t "max_data_extension_time_in_days") true false
    let ctSql ← name_value_to_sql "change_tracking"
      (dget t "change_tracking") true false
    let ddcSql ← name_value_to_sql "default_ddl_collation"
      (dget t "default_ddl_collation") true false
    let cmSql ← name_value_to_sql "comment" (dget t "comment") true true
    pure (columns_sql ++ " " ++ clusterSql ++ " " ++ eseSql ++ " " ++ "\n"
      ++ " " ++ drtSql ++ " " ++ mdetSql ++ " " ++ ctSql ++ " " ++ ddcSql
      ++ " " ++ cmSql ++ "\n    ")
  else pure ""

/-- Python `s.rpartition('.')[-1]`. -/
def afterLastDot (s : String) : String :=
  ⟨(s.data.reverse.takeWhile (fun c => c ≠ '.')).reverse⟩

/-- `TableResource.get_new_table_name`. -/
def get_new_table_name (action : String) (queryParams body : PyDict)
    (tableName : String) : Except PyErr String := do
  let raw ←
    if action = "using_template" || action = "as_select" then pure tableName
    else if action = "create_like" then do
      let v ← dgetItem queryParams "newTableName"
      pyValAsStr v
    else do
      let v ← dgetItem body "name"
      pyValAsStr v
  pure (afterLastDot raw)

/-- `TableResource.table_creation_prefix`. -/
def table_creation_prefix (action dbName schemaName tableName : String)
    (queryParams body : PyDict) : Except PyErr String := do
  let kindV := dgetD body "kind" (.str "")
  let kind ←
    if pyTruthy kindV then do
      let s ← pyValAsStr kindV
      pure (if pyStripChars " " (pyLower s) = "table" then "" else s)
    else pure (pyStr kindV)
  let newName ← get_new_table_name action queryParams body tableName
  let n ← normE newName
  let table_start_sql :=
    kind ++ "  table " ++ dbName ++ "." ++ schemaName ++ "." ++ n
  let sql ←
    if dcontains queryParams "createMode" then do
      let cm := dget queryParams "createMode"
      if pyEq cm (.str "orReplace") then
        pure ("CREATE " ++ "OR REPLACE " ++ table_start_sql ++ " ")
      else if pyEq cm (.str "ifNotExists") then
        pure ("CREATE " ++ table_start_sql ++ " IF NOT EXISTS ")
      else if pyEq cm (.str "errorIfExists") || ¬ pyTruthy cm then
        pure ("CREATE " ++ table_start_sql)
      else throw (.rest (mkBadRequest
        ("Unsupported createMode mentioned " ++ pyStr cm)))
    else pure ("CREATE " ++ table_start_sql)
  pure (sql ++ " ")

/-- `TableResource._get_create_table_query`. -/
def get_create_table_query (action : String) (queryParams body : PyDict)
    (fullTableName : String) : String :=
  if action = "clone" then " clone " ++ pyStr (.dict body)
  else if action = "create_like" then " like " ++ fullTableName
  else if action = "as_select" then " as " ++ pyStr (dget queryParams "query")
  else if action = "using_template" then
    " using template (" ++ pyStr (dget queryParams "query") ++ ")"
  else ""

/-- `TableResource.create_table`, statement construction. -/
def create_table_sql (action dbName schemaName tableName fullTableName : String)
    (queryParams body : PyDict) : Except PyErr String := do
  let p ← table_creation_prefix action dbName schemaName tableName queryParams body
  let q := get_create_table_query action queryParams body fullTableName
  let copy_grants :=
    if pyTruthy (dget queryParams "copy_grants") then " copy grants" else ""
  let t ← table_to_sql body
  pure (p ++ " " ++ t ++ copy_grants ++ q)

/-- `TableResource.create_table`, including execution. -/
def create_table (action dbName schemaName tableName fullTableName : String)
    (queryParams body : PyDict) (be : Backend) : ExecRes (String × PyDict) :=
  match create_table_sql action dbName schemaName tableName fullTableName
      queryParams body with
  | .error e => ⟨[], .error e⟩
  | .ok sql =>
    let r := runSqlFirst be sql
    ⟨r.trace, r.out.map (fun row => (sql, row))⟩

/-- The inner `compare_column` of `create_or_alter_table`: `BadRequest` on
a positional name change or on a change of collate/identity settings;
otherwise the comma-joined MODIFY clauses for datatype, default,
nullability and comment differences. -/
def compare_column (old newc : PyVal) : Except PyErr String := do
  let oldD ← pyValAsDict old
  let newD ← pyValAsDict newc
  let cnV ← dgetItem newD "name"
  let cn ← pyValAsStr cnV
  let nrm ← normE cn
  let onV ← dgetItem oldD "name"
  let on1 ← pyValAsStr onV
  let oldNrm ← normE on1
  if nrm ≠ oldNrm then
    throw (.rest (mkBadRequest
      ("Can't remove a column for create_or_update. " ++ cn ++ " is removed.")))
  let odV ← dgetItem oldD "datatype"
  let od ← pyValAsStr odV
  let ndV ← dgetItem newD "datatype"
  let nd ← pyValAsStr ndV
  let old_datatype := normalize_datatype od
  let new_datatype := normalize_datatype nd
  let part1 :=
    if old_datatype ≠ new_datatype then [nrm ++ " " ++ new_datatype ++ " "]
    else []
  let part2 :=
    if ¬ pyEq (dget oldD "default") (dget newD "default") then
      if isNoneV (dget newD "default") then [" " ++ nrm ++ " drop default"]
      else [" " ++ nrm ++ " set default " ++ pyStr (dget newD "default")]
    else []
  let part3 :=
    if ¬ pyEq (dget oldD "nullable") (dget newD "nullable") then
      if pyEq (dget newD "nullable") (.bool true) then
        [" " ++ nrm ++ " drop not null"]
      else [" " ++ nrm ++ " not null"]
    else []
  let part4 ←
    if ¬ pyEq (dget oldD "comment") (dget newD "comment") then do
      let v ← dgetItem newD "comment"
      if pyTruthy v then
        pure [" " ++ nrm ++ " comment '" ++ pyStr v ++ "'"]
      else pure [" " ++ nrm ++ " unset comment"]
    else pure []
  let newCollate := dget newD "collate"
  if pyTruthy newCollate then do
    let nc ← pyValAsStr newCollate
    let oc ← pyLowerVal (dgetD oldD "collate" (.str ""))
    if oc ≠ pyLower nc then
      throw (.rest (mkBadRequest "Can't update a column collate."))
  let new_identity := pyTruthy (dget newD "autoincrement")
  let old_identity := pyTruthy (dget oldD "autoincrement")
  if new_identity ≠ old_identity then
    throw (.rest (mkBadRequest
      ("'autoincrement' of Column " ++ cn ++ " can't be updated.")))
  if ¬ pyEq (dget oldD "autoincrement_start") (dget newD "autoincrement_start") then
    throw (.rest (mkBadRequest
      ("'autoincrement_start' of Column " ++ cn ++ " can't be updated.")))
  if ¬ pyEq (dget oldD "autoincrement_increment")
      (dget newD "autoincrement_increment") then
    throw (.rest (mkBadRequest
      ("'autoincrement_increment' of Column " ++ cn ++ " can't be updated.")))
  pure (String.intercalate "," (part1 ++ part2 ++ part3 ++ part4))

/-- Python dict assignment `d[k] = v` (replace in place or append). -/
def dset (d : PyDict) (k : String) (v : PyVal) : PyDict :=
  if dcontains d k then d.map (fun e => if e.1 == k then (k, v) else e)
  else d ++ [(k, v)]

/-- Keyed-map insertion used for the constraint dictionaries (Python dict
comprehension: a duplicate key keeps its first position, last value). -/
def upsertK (m : List (List String × PyDict)) (k : List String) (v : PyDict) :
    List (List String × PyDict) :=
  if m.any (fun e => e.1 == k) then
    m.map (fun e => if e.1 == k then (k, v) else e)
  else m ++ [(k, v)]

/-- The scalar-property names reconciled by `create_or_alter_table`, in
source order. -/
def table_property_names : List String :=
  ["data_retention_time_in_days", "enable_schema_evolution",
   "max_data_extension_time_in_days", "change_tracking",
   "default_ddl_collation", "comment"]

/-- Scalar-property diff of `create_or_alter_table`: one `set` statement
for all properties with a new non-null value (values quoted from the raw
body, even for the case-normalized `default_ddl_collation`), then one
`unset` statement per property that became null. -/
def tablePropsSection (fullName : String) (body orig : PyDict) :
    Except PyErr (List String) := do
  let acc ← table_property_names.foldlM
    (fun acc p => do
      let pv0 := dget body p
      let pv ←
        if p = "default_ddl_collation" && pyTruthy pv0 then do
          let s ← pyUpperVal pv0
          pure (PyVal.str s)
        else pure pv0
      if ¬ pyEq pv (dget orig p) then
        if isNoneV pv then pure (acc.1, acc.2 ++ [p])
        else pure (acc.1 ++ [p], acc.2)
      else pure acc)
    (([], []) : List String × List String)
  let setStmts ←
    if ¬ acc.1.isEmpty then do
      let pieces ← acc.1.mapM fun x => do
        let q ← tsqE (dget body x)
        pure (x ++ "=" ++ q)
      pure ["alter table " ++ fullName ++ " set "
              ++ String.intercalate " " pieces]
    else pure []
  pure (setStmts
    ++ acc.2.map (fun p => "alter table " ++ fullName ++ " unset " ++ p))

/-- Positional column diff of `create_or_alter_table`: MODIFY statements
over the common prefix, a `BadRequest` when the desired list is shorter
than the current one, ADD COLUMN statements for the extra desired
columns. -/
def tableColumnsSection (fullName : String) (origCols newCols : List PyVal) :
    Except PyErr (List String) := do
  let length := min newCols.length origCols.length
  let pairs := (origCols.take length).zip (newCols.take length)
  let modifies ← pairs.foldlM
    (fun acc p => do
      let s ← compare_column p.1 p.2
      pure (if s ≠ "" then
              acc ++ ["alter table " ++ fullName ++ " modify " ++ s]
            else acc))
    ([] : List String)
  if origCols.length > newCols.length then do
    let removed ← (origCols.drop length).mapM fun c => do
      let d ← pyValAsDict c
      let v ← dgetItem d "name"
      pyValAsStr v
    throw (.rest (mkBadRequest
      ("Can't remove a column for create_or_update. These columns are removed "
        ++ String.intercalate "," removed ++ ".")))
  let adds ← (newCols.drop length).mapM fun c => do
    let s ← column_to_sql c
    pure ("alter table " ++ fullName ++ " add column " ++ s)
  pure (modifies ++ adds)

/-- Inline column constraints collected by `create_or_alter_table`
(each tagged with its column's name). -/
def tableInlineConstraints (newCols : List PyVal) :
    Except PyErr (List PyDict) :=
  newCols.foldlM
    (fun acc c => do
      let cd ← pyValAsDict c
      if ¬ isNoneV (dget cd "constraints") then do
        let colNameV ← dgetItem cd "name"
        let cons ← pyValAsList (dget cd "constraints")
        let consDicts ← cons.mapM pyValAsDict
        pure (acc ++ consDicts.map (fun cc => dset cc "column_names" (.list [colNameV])))
      else pure acc)
    ([] : List PyDict)

/-- Parse a `constraints` value (a Python list of dicts). -/
def consFromVal (v : PyVal) : Except PyErr (List PyDict) := do
  let xs ← pyValAsList v
  xs.mapM pyValAsDict

/-- The `{normalized column names: constraint}` dictionary built (twice, once
for each side) by the unique-key loops of `create_or_alter_table`. -/
def uniqueKeyMap (cons : List PyDict) :
    Except PyErr (List (List String × PyDict)) :=
  cons.foldlM
    (fun acc c =>
      if pyEq (dget c "constraint_type") (.str "UNIQUE") then do
        let key ← normNames (dget c "column_names")
        pure (upsertK acc key c)
      else pure acc)
    ([] : List (List String × PyDict))

/-- Primary-key reconciliation statements of `create_or_alter_table`. -/
def tablePkStmts (fullName : String) (pks : List PyDict)
    (origPk : Option PyDict) : Except PyErr (List String) :=
  match pks with
  | [pk] =>
    match origPk with
    | some opk => do
      let opn ← pyValAsStr (dget opk "name")
      let original_pk_name ← normE opn
      let pk_name ←
        if pyTruthy (dget pk "name") then do
          let s ← pyValAsStr (dget pk "name")
          let n ← normE s
          pure (some n)
        else pure (Option.none : Option String)
      let newKey ← normNames (dget pk "column_names")
      let oldKey ← normNames (dget opk "column_names")
      if newKey = oldKey then
        if pk_name = some original_pk_name
            || (pk_name = Option.none && match_sys_name original_pk_name) then
          pure []
        else
          match pk_name with
          | some n =>
            pure ["alter table " ++ fullName ++ " rename constraint "
                    ++ original_pk_name ++ " to " ++ n]
          | Option.none => do
            let x ← constraint_to_sql (.dict pk)
            pure ["alter table " ++ fullName ++ " drop constraint "
                    ++ original_pk_name,
                  "alter table " ++ fullName ++ " add " ++ x ++ " "]
      else do
        let x ← constraint_to_sql (.dict pk)
        pure ["alter table " ++ fullName ++ " drop constraint "
                ++ original_pk_name,
              "alter table " ++ fullName ++ " add " ++ x ++ " "]
    | Option.none => do
      let x ← constraint_to_sql (.dict pk)
      pure ["alter table " ++ fullName ++ " add " ++ x ++ " "]
  | _ =>
    match origPk with
    | some opk => do
      let opn ← pyValAsStr (dget opk "name")
      let original_pk_name ← normE opn
      pure ["alter table " ++ fullName ++ " drop constraint "
              ++ original_pk_name]
    | Option.none => pure []

/-- Drop statements for current unique keys no longer desired. -/
def tableUkDropStmts (fullName : String)
    (origUks uks : List (List String × PyDict)) :
    Except PyErr (List String) :=
  origUks.foldlM
    (fun acc kc => do
      if ¬ uks.any (fun e => e.1 == kc.1) then do
        let ocn ← pyValAsStr (dget kc.2 "name")
        let n ← normE ocn
        pure (acc ++ ["alter table " ++ fullName ++ " drop constraint " ++ n])
      else pure acc)
    ([] : List String)

/-- Rename/add statements for the desired unique keys. -/
def tableUkStmts (fullName : String)
    (origUks uks : List (List String × PyDict)) :
    Except PyErr (List String) :=
  uks.foldlM
    (fun acc kc => do
      let con := kc.2
      let con_name ←
        if pyTruthy (dget con "name") then do
          let s ← pyValAsStr (dget con "name")
          let n ← normE s
          pure (some n)
        else pure (Option.none : Option String)
      match origUks.find? (fun e => e.1 == kc.1) with
      | some oe => do
        let os ← pyValAsStr (dget oe.2 "name")
        let original_con_name ← normE os
        if con_name = Option.none && match_sys_name original_con_name then
          pure acc
        else if con_name ≠ some original_con_name then
          pure (acc ++ ["alter table " ++ fullName ++ " rename constraint "
                  ++ original_con_name ++ " to "
                  ++ (match con_name with | some s => s | Option.none => "None")])
        else pure acc
      | Option.none => do
        let x ← constraint_to_sql (.dict con)
        pure (acc ++ ["alter table " ++ fullName ++ " add " ++ x]))
    ([] : List String)

def tableConstraintsSection (fullName : String) (body orig : PyDict)
    (newCols : List PyVal) : Except PyErr (List String) := do
  let inline ← tableInlineConstraints newCols
  let outofline := dget body "constraints"
  let newCons ←
    if pyTruthy outofline then do
      let ds ← consFromVal outofline
      pure (inline ++ ds)
    else pure inline
  let origConsV := dget orig "constraints"
  let origCons ←
    if pyTruthy origConsV then consFromVal origConsV
    else pure []
  let origPks := origCons.filter
    (fun c => pyEq (dget c "constraint_type") (.str "PRIMARY KEY"))
  let origPk := origPks.head?
  let origUks ← uniqueKeyMap origCons
  let pks := newCons.filter
    (fun c => pyEq (dget c "constraint_type") (.str "PRIMARY KEY"))
  if pks.length > 1 then
    throw (.rest (mkBadRequest "There should be only one primary key defined."))
  let pkStmts ← tablePkStmts fullName pks origPk
  let uks ← uniqueKeyMap newCons
  let dropStmts ← tableUkDropStmts fullName origUks uks
  let ukStmts ← tableUkStmts fullName origUks uks
  pure (pkStmts ++ dropStmts ++ ukStmts)

/-- Cluster-key diff of `create_or_alter_table`. -/
def tableClusterSection (fullName : String) (body orig : PyDict) :
    Except PyErr (List String) := do
  let new_cb := dget body "cluster_by"
  if ¬ pyEq (dget orig "cluster_by") new_cb then
    if pyTruthy new_cb then do
      let cb ← pyListOfStrs new_cb
      pure ["alter table " ++ fullName ++ " cluster by ("
              ++ String.intercalate "," cb ++ ")"]
    else pure ["alter table " ++ fullName ++ " drop clustering key"]
  else pure []

/-- The full statement plan of `TableResource.create_or_alter_table` on an
existing table `orig` (desc result): kind check, scalar properties, column
diff, constraint diff, cluster-key diff. -/
def table_coa_plan (dbName schemaName tableName : String) (body orig : PyDict) :
    Except PyErr (List String) := do
  let kindV := dgetD body "kind" (.str "TABLE")
  let kind ←
    if pyTruthy kindV then do
      let s ← pyValAsStr kindV
      pure (PyVal.str (pyLower s))
    else pure kindV
  let okV ← dgetItem orig "kind"
  let oks ← pyValAsStr okV
  let original_kind := pyLower oks
  if ¬ pyEq kind (.str original_kind)
      && ¬ (pyEq kind (.str "temp") && original_kind = "temporary") then
    throw (.rest (mkBadRequest
      ("Table kind must match. Original kind is " ++ original_kind
        ++ " while new kind is " ++ pyStr kind)))
  let fullName := double_quote_name dbName ++ "." ++ double_quote_name schemaName
    ++ "." ++ double_quote_name tableName
  let propStmts ← tablePropsSection fullName body orig
  let origColsV ← dgetItem orig "columns"
  let origCols ← pyValAsList origColsV
  let newColsV := dget body "columns"
  if ¬ pyTruthy newColsV then
    throw (.rest (mkBadRequest "Columns must be provided for create_or_update"))
  let newCols ← pyValAsList newColsV
  let colStmts ← tableColumnsSection fullName origCols newCols
  let conStmts ← tableConstraintsSection fullName body orig newCols
  let cluStmts ← tableClusterSection fullName body orig
  pure (propStmts ++ colStmts ++ conStmts ++ cluStmts)

/-- The serial execution loop at the end of `create_or_alter_table`
(`RestError` wrapped into a fixed `InternalServerError` without details). -/
def runTableQueries (be : Backend) : List String → ExecRes Unit
  | [] => ⟨[], .ok ()⟩
  | q :: rest =>
    match snowExecute be q with
    | .error (.rest _) =>
      ⟨[q], .error (.rest (mkInternalServerError
        ("Could not successfully put the table on Snowflake. "
          ++ "Kindly check for data inconsistencies")))⟩
    | .error pe => ⟨[q], .error pe⟩
    | .ok _ =>
      let r := runTableQueries be rest
      ⟨q :: r.trace, r.out⟩

/-- `TableResource.create_or_alter_table`: path/body name consistency, then
either delegate to `create_table` (describe reported not-found) or build
and run the reconciliation plan. -/
def create_or_alter_table (action dbName schemaName tableName : String)
    (queryParams body : PyDict) (current : Option PyDict) (be : Backend) :
    ExecRes (String × PyDict) :=
  match (do
    let n1 ← normE tableName
    let nv ← dgetItem body "name"
    let ns ← pyValAsStr nv
    let n2 ← normE ns
    pure (n1, n2, ns) : Except PyErr (String × String × String)) with
  | .error e => ⟨[], .error e⟩
  | .ok (n1, n2, ns) =>
    if n1 ≠ n2 then
      ⟨[], .error (.rest (mkBadRequest
        ("Table name " ++ tableName
          ++ " in path doesn't match input Table object's name " ++ ns)))⟩
    else
      match current with
      | Option.none =>
        create_table action dbName schemaName tableName
          (dbName ++ "." ++ schemaName ++ "." ++ tableName) queryParams body be
      | some orig =>
        match table_coa_plan dbName schemaName tableName body orig with
        | .error e => ⟨[], .error e⟩
        | .ok plan =>
          let r := runTableQueries be plan
          ⟨r.trace, r.out.map (fun _ => (strOfStrList plan, successRow))⟩

/-- Shape of every statement the property loop of `_create_or_alter_task`
appends directly to `coa_sql` (as opposed to the final UNSET/SET pair):
an `ALTER TASK … MODIFY/REMOVE/ADD …` statement. -/
def taskLoopStmt (tn q : String) : Prop :=
  (("ALTER TASK " ++ tn ++ " MODIFY ").data <+: q.data)
  ∨ (("ALTER TASK " ++ tn ++ " REMOVE ").data <+: q.data)
  ∨ (("ALTER TASK " ++ tn ++ " ADD ").data <+: q.data)

/-! ## Shared lemmas -/

-- Reflexivity of the Python equality model.
mutual
theorem pyEq_refl : ∀ v : PyVal, pyEq v v = true
  | .none => rfl
  | .bool b => by simp [pyEq]
  | .int n => by simp [pyEq]
  | .str s => by simp [pyEq]
  | .list xs => by simp [pyEq, pyEqList_refl xs]
  | .dict kvs => by simp [pyEq, pyEqDict_refl kvs]
theorem pyEqList_refl : ∀ xs : List PyVal, pyEqList xs xs = true
  | [] => rfl
  | a :: as => by simp [pyEqList, pyEq_refl a, pyEqList_refl as]
theorem pyEqDict_refl : ∀ d : List (String × PyVal), pyEqDict d d = true
  | [] => rfl
  | (k, v) :: rest => by simp [pyEqDict, pyEq_refl v, pyEqDict_refl rest]
end

/-- In a dictionary without repeated keys, each entry is what lookup
finds. -/
theorem dlookup_of_mem_nodup :
    ∀ {d : PyDict}, nodupKeys d → ∀ {e : String × PyVal}, e ∈ d →
      dlookup d e.1 = some e.2 := by
  intro d
  induction d with
  | nil => intro _ e he; cases he
  | cons hd' tl ih =>
    intro hnd e he
    have hnd' := hnd
    unfold nodupKeys dkeys at hnd'
    simp only [List.map_cons, List.nodup_cons] at hnd'
    rcases List.mem_cons.mp he with rfl | hmem
    · simp [dlookup, List.find?]
    · have hne : hd'.1 ≠ e.1 := by
        intro hcontra
        exact hnd'.1 (hcontra ▸ List.mem_map_of_mem _ hmem)
      have := ih hnd'.2 hmem
      simp only [dlookup, List.find?] at this ⊢
      rw [show (hd'.1 == e.1) = false from by simp [hne]]
      exact this

/-- Two strings sharing a front part but then disagreeing on a character
cannot be prefixes of each other. -/
theorem prefix_head_ne {a : List Char} {x y : Char} {u v : List Char}
    (hxy : x ≠ y) : ¬ (a ++ x :: u <+: a ++ y :: v) := by
  intro h
  have := (List.prefix_append_right_inj a).mp h
  exact hxy (List.cons_prefix_cons.mp this).1

/-- `takeWhile` passes over a block that satisfies the predicate. -/
theorem takeWhile_append_all {p : Char → Bool} :
    ∀ (a b : List Char), (∀ c ∈ a, p c = true) →
      (a ++ b).takeWhile p = a ++ b.takeWhile p
  | [], b, _ => by simp
  | c :: tl, b, h => by
    have hc : p c = true := h c (List.mem_cons_self _ _)
    simp [List.takeWhile_cons, hc,
      takeWhile_append_all tl b (fun x hx => h x (List.mem_cons_of_mem _ hx))]


/-- Every statement of `_set_predecessors` is a `REMOVE AFTER` or an
`ADD AFTER` alteration. -/
theorem tls_remove (tn tail : String) : taskLoopStmt tn
    ("ALTER TASK " ++ tn ++ " REMOVE AFTER " ++ tail) := by
  refine Or.inr (Or.inl ⟨("AFTER " ++ tail).data, ?_⟩)
  simp [show (" REMOVE AFTER " : String) = " REMOVE " ++ "AFTER " from rfl,
    String.data_append]

theorem tls_add (tn tail : String) : taskLoopStmt tn
    ("ALTER TASK " ++ tn ++ " ADD AFTER " ++ tail) := by
  refine Or.inr (Or.inr ⟨("AFTER " ++ tail).data, ?_⟩)
  simp [show (" ADD AFTER " : String) = " ADD " ++ "AFTER " from rfl,
    String.data_append]

theorem tls_when1 (tn : String) : taskLoopStmt tn
    ("ALTER TASK " ++ tn ++ " MODIFY WHEN 1=1") := by
  refine Or.inl ⟨"WHEN 1=1".data, ?_⟩
  simp [show (" MODIFY WHEN 1=1" : String) = " MODIFY " ++ "WHEN 1=1" from rfl,
    String.data_append]

theorem tls_when (tn s : String) : taskLoopStmt tn
    ("ALTER TASK " ++ tn ++ " MODIFY WHEN " ++ s) := by
  refine Or.inl ⟨("WHEN " ++ s).data, ?_⟩
  simp [show (" MODIFY WHEN " : String) = " MODIFY " ++ "WHEN " from rfl,
    String.data_append]

theorem tls_as (tn s : String) : taskLoopStmt tn
    ("ALTER TASK " ++ tn ++ " MODIFY AS " ++ s) := by
  refine Or.inl ⟨("AS " ++ s).data, ?_⟩
  simp [show (" MODIFY AS " : String) = " MODIFY " ++ "AS " from rfl,
    String.data_append]

theorem set_predecessors_shape (tn : String) (body : PyDict)
    (cur stmts : List String)
    (h : set_predecessors tn body cur = .ok stmts) :
    ∀ q ∈ stmts, taskLoopStmt tn q := by
  unfold set_predecessors at h
  simp only [Bind.bind, Except.bind, pure, Except.pure] at h
  repeat' split at h
  all_goals try exact Except.noConfusion h
  all_goals (injection h with h; subst h; intro q hq)
  all_goals try exact absurd hq (List.not_mem_nil q)
  all_goals simp only [List.nil_append, List.mem_append,
    List.mem_singleton] at hq
  all_goals rcases hq with rfl | rfl
  all_goals (first
    | exact tls_remove tn _
    | exact tls_add tn _)

/-- The property loop of `_create_or_alter_task` only ever appends
`MODIFY`/`REMOVE`/`ADD` alterations to `coa_sql`; every other branch
touches only the pending UNSET/SET lists. -/
theorem taskStep_sql (tn tOrig : String) (body desc : PyDict)
    (st st' : TaskAcc) (key : String)
    (h : taskStep tn tOrig body desc st key = .ok st') :
    ∀ q ∈ st'.sql, q ∈ st.sql ∨ taskLoopStmt tn q := by
  unfold taskStep at h
  by_cases k1 : key = "predecessors"
  · rw [if_pos k1] at h
    simp only [Bind.bind, Except.bind] at h
    cases h1 : dgetItem desc "predecessors" with
    | error e => rw [h1] at h; exact Except.noConfusion h
    | ok cur =>
      simp only [h1] at h
      cases h2 : pyListOfStrs cur with
      | error e => rw [h2] at h; exact Except.noConfusion h
      | ok curList =>
        simp only [h2] at h
        cases h3 : set_predecessors tn body curList with
        | error e => rw [h3] at h; exact Except.noConfusion h
        | ok stmts =>
          simp only [h3, pure, Except.pure] at h
          injection h with h
          subst h
          intro q hq
          rcases List.mem_append.mp hq with hq | hq
          · exact Or.inl hq
          · exact Or.inr (set_predecessors_shape tn body curList stmts h3 q hq)
  · rw [if_neg k1] at h
    by_cases k2 : key = "session_parameters"
    · rw [if_pos k2] at h
      simp only [Bind.bind, Except.bind, pure, Except.pure, throw, throwThe,
        MonadExceptOf.throw] at h
      repeat' split at h
      all_goals try exact Except.noConfusion h
      all_goals (injection h with h; subst h; intro q hq; exact Or.inl hq)
    rw [if_neg k2] at h
    by_cases k3 : key = "condition"
    · rw [if_pos k3] at h
      split at h
      all_goals (injection h with h; subst h; intro q hq)
      all_goals (rcases List.mem_append.mp hq with hq | hq)
      all_goals try exact Or.inl hq
      all_goals simp only [List.mem_singleton] at hq
      all_goals subst hq
      exacts [Or.inr (tls_when1 tn), Or.inr (tls_when tn _)]
    rw [if_neg k3] at h
    by_cases k4 : key = "definition"
    · rw [if_pos k4] at h
      simp only [throw, throwThe, MonadExceptOf.throw] at h
      repeat' split at h
      all_goals try exact Except.noConfusion h
      all_goals (injection h with h; subst h; intro q hq)
      all_goals try exact Or.inl hq
      rcases List.mem_append.mp hq with hq | hq
      · exact Or.inl hq
      · simp only [List.mem_singleton] at hq
        subst hq
        exact Or.inr (tls_as tn _)
    rw [if_neg k4] at h
    by_cases k5 : key = "schedule"
    · rw [if_pos k5] at h
      simp only [Bind.bind, Except.bind, pure, Except.pure, throw, throwThe,
        MonadExceptOf.throw] at h
      repeat' split at h
      all_goals try exact Except.noConfusion h
      all_goals (injection h with h; subst h; intro q hq; exact Or.inl hq)
    rw [if_neg k5] at h
    by_cases k6 : key = "config"
    · rw [if_pos k6] at h
      simp only [Bind.bind, Except.bind, pure, Except.pure, throw, throwThe,
        MonadExceptOf.throw] at h
      repeat' split at h
      all_goals try exact Except.noConfusion h
      all_goals (injection h with h; subst h; intro q hq; exact Or.inl hq)
    rw [if_neg k6] at h
    by_cases k7 : task_scalar_group.contains key = true
    · rw [if_pos k7] at h
      simp only [Bind.bind, Except.bind, pure, Except.pure, throw, throwThe,
        MonadExceptOf.throw] at h
      repeat' split at h
      all_goals try exact Except.noConfusion h
      all_goals (injection h with h; subst h; intro q hq; exact Or.inl hq)
    rw [if_neg k7] at h
    by_cases k8 : key = "user_task_managed_initial_warehouse_size"
    · rw [if_pos k8] at h
      simp only [Bind.bind, Except.bind, pure, Except.pure, throw, throwThe,
        MonadExceptOf.throw] at h
      repeat' split at h
      all_goals try exact Except.noConfusion h
      all_goals (injection h with h; subst h; intro q hq; exact Or.inl hq)
    rw [if_neg k8] at h
    by_cases k9 : key = "name"
    · rw [if_pos k9] at h
      simp only [Bind.bind, Except.bind, pure, Except.pure, throw, throwThe,
        MonadExceptOf.throw] at h
      repeat' split at h
      all_goals try exact Except.noConfusion h
      all_goals (injection h with h; subst h; intro q hq; exact Or.inl hq)
    rw [if_neg k9] at h
    simp only [pure, Except.pure] at h
    injection h with h
    subst h
    intro q hq
    exact Or.inl hq

/-- Two candidate prefixes of the same string that disagree right after a
common front part cannot both be prefixes. -/
theorem prefix_both_head_ne {a : List Char} {x y : Char} {u v w : List Char}
    (hxy : x ≠ y) (hx : a ++ x :: u <+: w) (hy : a ++ y :: v <+: w) :
    False := by
  rcases List.prefix_or_prefix_of_prefix hx hy with h | h
  · exact prefix_head_ne hxy h
  · exact prefix_head_ne (Ne.symm hxy) h

/-- A `MODIFY`/`REMOVE`/`ADD` task alteration is neither the plan's UNSET
statement nor its SET statement. -/
theorem taskLoopStmt_not_unset_set (tn q : String) (h : taskLoopStmt tn q) :
    ¬ (("ALTER TASK " ++ tn ++ " UNSET").data <+: q.data)
    ∧ ¬ (("ALTER TASK " ++ tn ++ " SET").data <+: q.data) := by
  have eU : ("ALTER TASK " ++ tn ++ " UNSET").data
      = (("ALTER TASK ".data ++ tn.data) ++ [' ']) ++ 'U' :: "NSET".data := by
    simp [String.data_append,
      show (" UNSET" : String).data = ' ' :: 'U' :: "NSET".data from rfl]
  have eS : ("ALTER TASK " ++ tn ++ " SET").data
      = (("ALTER TASK ".data ++ tn.data) ++ [' ']) ++ 'S' :: "ET".data := by
    simp [String.data_append,
      show (" SET" : String).data = ' ' :: 'S' :: "ET".data from rfl]
  have eM : ("ALTER TASK " ++ tn ++ " MODIFY ").data
      = (("ALTER TASK ".data ++ tn.data) ++ [' ']) ++ 'M' :: "ODIFY ".data := by
    simp [String.data_append,
      show (" MODIFY " : String).data = ' ' :: 'M' :: "ODIFY ".data from rfl]
  have eR : ("ALTER TASK " ++ tn ++ " REMOVE ").data
      = (("ALTER TASK ".data ++ tn.data) ++ [' ']) ++ 'R' :: "EMOVE ".data := by
    simp [String.data_append,
      show (" REMOVE " : String).data = ' ' :: 'R' :: "EMOVE ".data from rfl]
  have eA : ("ALTER TASK " ++ tn ++ " ADD ").data
      = (("ALTER TASK ".data ++ tn.data) ++ [' ']) ++ 'A' :: "DD ".data := by
    simp [String.data_append,
      show (" ADD " : String).data = ' ' :: 'A' :: "DD ".data from rfl]
  refine ⟨fun contra => ?_, fun contra => ?_⟩
  · rw [eU] at contra
    rcases h with hM | hR | hA
    · rw [eM] at hM; exact prefix_both_head_ne (by decide) contra hM
    · rw [eR] at hR; exact prefix_both_head_ne (by decide) contra hR
    · rw [eA] at hA; exact prefix_both_head_ne (by decide) contra hA
  · rw [eS] at contra
    rcases h with hM | hR | hA
    · rw [eM] at hM; exact prefix_both_head_ne (by decide) contra hM
    · rw [eR] at hR; exact prefix_both_head_ne (by decide) contra hR
    · rw [eA] at hA; exact prefix_both_head_ne (by decide) contra hA

/-- An invariant preserved by every successful step of a monadic fold is
preserved by the whole fold. -/
theorem foldlM_ok_inv {α β : Type} (P : α → Prop) (f : α → β → Except PyErr α)
    (hf : ∀ a b a', P a → f a b = .ok a' → P a') :
    ∀ (l : List β) (a a' : α), P a → l.foldlM f a = .ok a' → P a' := by
  intro l
  induction l with
  | nil =>
    intro a a' h hfold
    simp only [List.foldlM_nil, pure, Except.pure] at hfold
    injection hfold with hfold
    subst hfold
    exact h
  | cons b l ih =>
    intro a a' h hfold
    rw [List.foldlM_cons] at hfold
    cases hx : f a b with
    | error e =>
      rw [hx] at hfold
      simp only [Bind.bind, Except.bind] at hfold
      exact Except.noConfusion hfold
    | ok a1 =>
      rw [hx] at hfold
      simp only [Bind.bind, Except.bind] at hfold
      exact ih a1 a' (hf a b a1 h hx) hfold


/-! ## C5 — idempotence of name normalization -/

/-- C5 counterexample: the quoted name containing a newline is accepted by
the repository's own validity check (`validate_object_name`), yet
`normalize_name` re-quotes it on every application, so
`normalize(normalize(x)) ≠ normalize(x)`. -/
theorem C5_counterexample :
    validate_object_name_ok "\"a\nb\"" = true
    ∧ normalize_name "\"a\nb\"" = .ok "\"\"\"a\nb\"\"\""
    ∧ normalize_name "\"\"\"a\nb\"\"\"" = .ok "\"\"\"\"\"\"\"a\nb\"\"\"\"\"\"\""
    ∧ ("\"\"\"\"\"\"\"a\nb\"\"\"\"\"\"\"" : String) ≠ "\"\"\"a\nb\"\"\"" := by
  refine ⟨by decide, rfl, rfl, by decide⟩

/-! ## C1 — identical desired state on PUT -/

/-- C1 counterexample.  Databases: a PUT whose body is literally the
dictionary returned by describe (with a null comment) still executes one
`ALTER DATABASE … SET comment=null` statement.  Tasks: a PUT whose desired
state coincides with the current state still produces a non-empty plan
(the unconditional `MODIFY WHEN 1=1` and the `UNSET schedule,config`
statements). -/
theorem C1_counterexample :
    create_or_alter_db_existing "D"
      [("name", .str "D"), ("comment", .none), ("owner", .str "ADMIN")]
      [("name", .str "D"), ("comment", .none), ("owner", .str "ADMIN")]
      (fun _ => .ok [[("status", .str "x")]])
    = ⟨["ALTER DATABASE D SET comment=null"],
       .ok ("ALTER DATABASE D SET comment=null", successRow)⟩
    ∧ task_coa_plan "D.S.T" "T"
        [("name", .str "T"), ("definition", .str "select 1")]
        [("name", .str "T"), ("definition", .str "select 1"),
         ("warehouse", .none), ("comment", .none),
         ("predecessors", .list []), ("session_parameters", .dict []),
         ("config", .dict []),
         ("user_task_managed_initial_warehouse_size", .none)]
      = .ok ["ALTER TASK D.S.T MODIFY WHEN 1=1",
             "ALTER TASK D.S.T UNSET schedule,config"]
    ∧ (["ALTER TASK D.S.T MODIFY WHEN 1=1",
        "ALTER TASK D.S.T UNSET schedule,config"] : List String) ≠ [] := by
  refine ⟨rfl, rfl, by decide⟩

/-! ## C2 — immutable-property changes -/

/-- C2 counterexample: a create-or-alter request on an existing task whose
body changes the immutable `user_task_managed_initial_warehouse_size`
*and* carries an empty-string comment fails with a Python `IndexError`
raised by `try_single_quote_value` (surfacing as a 500), not with the
claimed client error — the comment branch of the property loop runs before
the immutable-property check. -/
theorem C2_counterexample :
    task_coa_plan "D.S.T" "T"
      [("name", .str "T"), ("definition", .str "select 1"),
       ("comment", .str ""),
       ("user_task_managed_initial_warehouse_size", .str "XSMALL")]
      [("name", .str "T"), ("definition", .str "select 1"),
       ("comment", .str "x"),
       ("predecessors", .list []), ("session_parameters", .dict []),
       ("config", .dict []),
       ("user_task_managed_initial_warehouse_size", .none)]
    = .error (.pyExc "IndexError" "IndexError: string index out of range")
    ∧ (PyErr.pyExc "IndexError" "IndexError: string index out of range").status
        = 500 := by
  refine ⟨rfl, rfl⟩

/-! ## C3 — table column reconciliation -/

/-- C3 counterexample: on an existing table, a desired column list shorter
than the current one does *not* always raise `BadRequest`: when the body
also sets an empty-string comment, the scalar-property diff (which runs
first) raises a Python `IndexError` in `try_single_quote_value`, surfacing
as a 500. -/
theorem C3_counterexample :
    table_coa_plan "D" "S" "T"
      [("name", .str "T"), ("comment", .str ""),
       ("columns", .list [.dict [("name", .str "A"), ("datatype", .str "int"),
         ("nullable", .bool true), ("comment", .none)]])]
      [("kind", .str "TABLE"), ("comment", .str "x"),
       ("columns", .list
         [.dict [("name", .str "A"), ("datatype", .str "NUMBER(38,0)"),
           ("nullable", .bool true), ("comment", .none)],
          .dict [("name", .str "B"), ("datatype", .str "VARCHAR(16777216)"),
           ("nullable", .bool true), ("comment", .none)]])]
    = .error (.pyExc "IndexError" "IndexError: string index out of range")
    ∧ (1 : Nat) < 2 := by
  refine ⟨rfl, by decide⟩

/-! ## C6 — UNSET before SET ordering -/

/-- C6 counterexample: for warehouses the claim fails — on a PUT update the
translator executes `update_and_set_warehouse` *before*
`update_and_unset_warehouse`, so the trace shows the SET statement at
position 1 and the UNSET statement at position 2. -/
theorem C6_counterexample :
    create_or_update_warehouse []
      [("name", .str "W1"), ("auto_suspend", .int 60)]
      (fun s => if s = "SHOW WAREHOUSES LIKE 'W1'" then
          .ok [[("name", .str "W1")]]
        else .ok [[("status", .str "x")]])
    = ⟨["SHOW WAREHOUSES LIKE 'W1'",
        "ALTER WAREHOUSE W1 SET AUTO_SUSPEND = 60 ",
        "ALTER WAREHOUSE W1 UNSET MAX_CLUSTER_COUNT, MIN_CLUSTER_COUNT, "
          ++ "AUTO_RESUME, COMMENT, ENABLE_QUERY_ACCELERATION, "
          ++ "MAX_CONCURRENCY_LEVEL, STATEMENT_QUEUED_TIMEOUT_IN_SECONDS, "
          ++ "STATEMENT_TIMEOUT_IN_SECONDS"],
       .ok ("ALTER WAREHOUSE W1 UNSET MAX_CLUSTER_COUNT, MIN_CLUSTER_COUNT, "
          ++ "AUTO_RESUME, COMMENT, ENABLE_QUERY_ACCELERATION, "
          ++ "MAX_CONCURRENCY_LEVEL, STATEMENT_QUEUED_TIMEOUT_IN_SECONDS, "
          ++ "STATEMENT_TIMEOUT_IN_SECONDS", successRow)⟩ := by
  rfl


/-- C6 (amended): for tasks the ordering holds — every successfully built
plan decomposes as the property-loop statements (each a
`MODIFY`/`REMOVE`/`ADD` alteration, never an UNSET or SET statement),
then the single UNSET statement if any names were collected, then the
single SET statement if any pairs were collected; so the UNSET statement
always precedes the SET statement.  For warehouses the claim is false:
see the counterexample (SET executes before UNSET). -/
theorem C6_task_unset_before_set (tn tOrig : String) (body desc : PyDict)
    (plan : List String)
    (h : task_coa_plan tn tOrig body desc = .ok plan) :
    ∃ pre u s, plan = pre ++ u ++ s
      ∧ (u = [] ∨ ∃ names, u = [pyStrip ("ALTER TASK " ++ tn ++ " UNSET "
            ++ String.intercalate "," names)])
      ∧ (s = [] ∨ ∃ pairs, s = [pyStrip ("ALTER TASK " ++ tn ++ " SET "
            ++ String.intercalate "," pairs)])
      ∧ (∀ q ∈ pre,
          ¬ (("ALTER TASK " ++ tn ++ " UNSET").data <+: q.data)
          ∧ ¬ (("ALTER TASK " ++ tn ++ " SET").data <+: q.data)) := by
  unfold task_coa_plan at h
  simp only [Bind.bind, Except.bind] at h
  cases hacc : (task_optional ++ task_required).foldlM
      (taskStep tn tOrig body desc) ⟨[], [], []⟩ with
  | error e => rw [hacc] at h; exact Except.noConfusion h
  | ok acc =>
    simp only [hacc, pure, Except.pure] at h
    injection h with h
    have hP : ∀ q ∈ acc.sql, taskLoopStmt tn q := by
      refine foldlM_ok_inv (fun a => ∀ q ∈ a.sql, taskLoopStmt tn q)
        (taskStep tn tOrig body desc) ?_ _ _ _ ?_ hacc
      · intro a b a' hPa hstep q hq
        rcases taskStep_sql tn tOrig body desc a a' b hstep q hq with hin | hls
        · exact hPa q hin
        · exact hls
      · intro q hq
        exact absurd hq (List.not_mem_nil q)
    have hpre : ∀ q ∈ acc.sql,
        ¬ (("ALTER TASK " ++ tn ++ " UNSET").data <+: q.data)
        ∧ ¬ (("ALTER TASK " ++ tn ++ " SET").data <+: q.data) :=
      fun q hq => taskLoopStmt_not_unset_set tn q (hP q hq)
    subst h
    by_cases hU : acc.unsetL.isEmpty <;> by_cases hS : acc.setL.isEmpty
    · exact ⟨acc.sql, [], [], by simp [hU, hS], Or.inl rfl, Or.inl rfl, hpre⟩
    · exact ⟨acc.sql, [],
        [pyStrip ("ALTER TASK " ++ tn ++ " SET "
          ++ String.intercalate "," acc.setL)],
        by simp [hU, hS], Or.inl rfl, Or.inr ⟨acc.setL, rfl⟩, hpre⟩
    · exact ⟨acc.sql,
        [pyStrip ("ALTER TASK " ++ tn ++ " UNSET "
          ++ String.intercalate "," acc.unsetL)], [],
        by simp [hU, hS], Or.inr ⟨acc.unsetL, rfl⟩, Or.inl rfl, hpre⟩
    · exact ⟨acc.sql,
        [pyStrip ("ALTER TASK " ++ tn ++ " UNSET "
          ++ String.intercalate "," acc.unsetL)],
        [pyStrip ("ALTER TASK " ++ tn ++ " SET "
          ++ String.intercalate "," acc.setL)],
        by simp [hU, hS], Or.inr ⟨acc.unsetL, rfl⟩,
        Or.inr ⟨acc.setL, rfl⟩, hpre⟩

/-- C6 witness: a concrete task PUT whose plan contains loop statements,
an UNSET statement and a SET statement, in that order. -/
theorem C6_task_unset_before_set_witness :
    task_coa_plan "T" "T"
        [("name", .str "T"), ("definition", .str "select 2"),
         ("comment", .str "c")]
        [("name", .str "T"), ("definition", .str "select 1"),
         ("predecessors", .list []), ("session_parameters", .dict []),
         ("config", .dict [])]
      = .ok ["ALTER TASK T MODIFY WHEN 1=1",
             "ALTER TASK T MODIFY AS select 2",
             "ALTER TASK T UNSET schedule,config",
             "ALTER TASK T SET COMMENT = 'c'"]
    ∧ ∃ pre u s,
        (["ALTER TASK T MODIFY WHEN 1=1",
          "ALTER TASK T MODIFY AS select 2",
          "ALTER TASK T UNSET schedule,config",
          "ALTER TASK T SET COMMENT = 'c'"] : List String) = pre ++ u ++ s
        ∧ (u = [] ∨ ∃ names, u = [pyStrip ("ALTER TASK " ++ "T" ++ " UNSET "
              ++ String.intercalate "," names)])
        ∧ (s = [] ∨ ∃ pairs, s = [pyStrip ("ALTER TASK " ++ "T" ++ " SET "
              ++ String.intercalate "," pairs)])
        ∧ (∀ q ∈ pre,
            ¬ (("ALTER TASK " ++ "T" ++ " UNSET").data <+: q.data)
            ∧ ¬ (("ALTER TASK " ++ "T" ++ " SET").data <+: q.data)) :=
  ⟨rfl, C6_task_unset_before_set "T" "T"
    [("name", .str "T"), ("definition", .str "select 2"),
     ("comment", .str "c")]
    [("name", .str "T"), ("definition", .str "select 1"),
     ("predecessors", .list []), ("session_parameters", .dict []),
     ("config", .dict [])]
    ["ALTER TASK T MODIFY WHEN 1=1",
     "ALTER TASK T MODIFY AS select 2",
     "ALTER TASK T UNSET schedule,config",
     "ALTER TASK T SET COMMENT = 'c'"] rfl⟩

/-! ## C7 — executor error classification -/

/-- C7: the 2002/2003 mappings hold (Conflict 409 and NotFound 404, with
the diagnostic fields attached), but an `OperationalError` whose native
code is outside the five recognized file/S3 codes is *swallowed* by
`_execute_internal` — no `RestError` is raised at all and the executor
continues as if the statement succeeded, contradicting both the claim and
the method's own docstring. -/
theorem C7_exec_classification (codes : ErrorCodes) (sql msg st id : String)
    (h1 : codes.er_invalid_stage_fs ≠ 604)
    (h2 : codes.er_file_not_exists ≠ 604)
    (h3 : codes.er_failed_to_request ≠ 604)
    (h4 : codes.er_failed_to_upload_to_stage ≠ 604)
    (h5 : codes.er_failed_to_connect_to_db ≠ 604) :
    classifyConnException codes sql (.programmingError 2002 msg st id)
      = some (mkConflict msg (some (errDetails 2002 sql st id)))
    ∧ classifyConnException codes sql (.programmingError 2003 msg st id)
      = some (mkNotFound msg (some (errDetails 2003 sql st id)))
    ∧ classifyConnException codes sql (.operationalError 604 msg st id)
      = Option.none := by
  refine ⟨rfl, rfl, ?_⟩
  simp only [classifyConnException]
  rw [show ((604 : Int) == codes.er_invalid_stage_fs
        || (604 : Int) == codes.er_file_not_exists) = false from by
      simp [Ne.symm h1, Ne.symm h2]]
  rw [show ((604 : Int) == codes.er_failed_to_request
        || (604 : Int) == codes.er_failed_to_upload_to_stage
        || (604 : Int) == codes.er_failed_to_connect_to_db) = false from by
      simp [Ne.symm h3, Ne.symm h4, Ne.symm h5]]
  simp

/-- C7 witness at a concrete code table (values as in the installed
connector's `errorcode` module). -/
theorem C7_exec_classification_witness :
    classifyConnException ⟨254001, 254008, 253002, 253005, 250011, 253004,
        250001⟩ "SELECT 1" (.operationalError 604 "oops" "57014" "qid")
      = Option.none :=
  (C7_exec_classification ⟨254001, 254008, 253002, 253005, 250011, 253004,
      250001⟩ "SELECT 1" "oops" "57014" "qid"
    (by decide) (by decide) (by decide) (by decide) (by decide)).2.2

/-! ## C8 — scenario A: PUT of a nonexistent warehouse -/

/-- C8: a PUT with body `{name: "W1", warehouse_size: "SMALL",
auto_suspend: 60}` against a backend on which `W1` does not exist (the SHOW
probe returns no rows) issues exactly the statement
`CREATE WAREHOUSE W1 WAREHOUSE_SIZE = SMALL AUTO_SUSPEND = 60 ` and returns
the single success row. -/
theorem C8_put_nonexistent_warehouse (be : Backend) (v : PyVal)
    (h1 : be "SHOW WAREHOUSES LIKE 'W1'" = .ok [])
    (h2 : be "CREATE WAREHOUSE W1 WAREHOUSE_SIZE = SMALL AUTO_SUSPEND = 60 "
            = .ok [[("status", v)]]) :
    create_or_update_warehouse []
      [("name", .str "W1"), ("warehouse_size", .str "SMALL"),
       ("auto_suspend", .int 60)] be
    = ⟨["SHOW WAREHOUSES LIKE 'W1'",
        "CREATE WAREHOUSE W1 WAREHOUSE_SIZE = SMALL AUTO_SUSPEND = 60 "],
       .ok ("CREATE WAREHOUSE W1 WAREHOUSE_SIZE = SMALL AUTO_SUSPEND = 60 ",
            successRow)⟩ := by
  simp [create_or_update_warehouse, snowExecute, h1, h2, runSqlFirst, firstRow,
    construct_response, create_or_replace_warehouse_sql, warehouseExists,
    successRow, pyStr, dlookup, dcontains, dget, dgetD, warehouse_optional,
    pyUpper, pyUpperChar, is_an_update, dkeys, tsqE, List.find?, Except.map,
    UNALTERABLE_PARAMETERS, pyValAsStr, normE, Bind.bind, Except.bind,
    List.foldlM, pure, Except.pure, show toString (60 : Int) = "60" from rfl]

/-- C8 witness with a concrete backend. -/
theorem C8_put_nonexistent_warehouse_witness :
    create_or_update_warehouse []
      [("name", .str "W1"), ("warehouse_size", .str "SMALL"),
       ("auto_suspend", .int 60)]
      (fun s => if s = "SHOW WAREHOUSES LIKE 'W1'" then .ok []
                else .ok [[("status", .str "x")]])
    = ⟨["SHOW WAREHOUSES LIKE 'W1'",
        "CREATE WAREHOUSE W1 WAREHOUSE_SIZE = SMALL AUTO_SUSPEND = 60 "],
       .ok ("CREATE WAREHOUSE W1 WAREHOUSE_SIZE = SMALL AUTO_SUSPEND = 60 ",
            successRow)⟩ :=
  C8_put_nonexistent_warehouse
    (fun s => if s = "SHOW WAREHOUSES LIKE 'W1'" then .ok []
              else .ok [[("status", .str "x")]])
    (.str "x") (by rfl) (by rfl)

/-! ## C10 — PUT on an existing warehouse with nothing to alter -/

/-- C10: a PUT on an existing warehouse whose body holds no parameter
beyond the unalterable ones (`name`, `tag`) returns the
"command ignored cause this is not an update" row and executes only the
SHOW probe — in particular no ALTER statement. -/
theorem C10_put_not_an_update (nm w : String) (body : PyDict)
    (rows : List PyDict) (be : Backend) (qp : PyDict)
    (hn : dlookup body "name" = some (.str nm))
    (hkeys : ∀ k ∈ dkeys body, k = "name" ∨ k = "tag")
    (hnorm : normalize_name nm = .ok w)
    (hshow : snowExecute be ("SHOW WAREHOUSES LIKE '" ++ nm ++ "'") = .ok rows)
    (hex : warehouseExists (.str nm) rows = .ok true) :
    create_or_update_warehouse qp body be
      = ⟨["SHOW WAREHOUSES LIKE '" ++ nm ++ "'"], .ok ("", ignoredUpdateRow)⟩
    ∧ ¬ ("ALTER".data <+: ("SHOW WAREHOUSES LIKE '" ++ nm ++ "'").data) := by
  constructor
  · have hupd : is_an_update (dkeys body) = false := by
      unfold is_an_update
      rw [List.any_eq_false]
      intro x hx
      rcases hkeys x hx with rfl | rfl <;> decide
    have hne : normE nm = .ok w := by unfold normE; rw [hnorm]
    simp [create_or_update_warehouse, hn, pyStr, hshow, hex, pyValAsStr, hne,
      Bind.bind, Except.bind, hupd]
  · intro hpre
    have : ("SHOW WAREHOUSES LIKE '" ++ nm ++ "'").data
        = 'S' :: ("HOW WAREHOUSES LIKE '".data ++ nm.data ++ "'".data) := by
      simp [String.data_append]
    rw [this] at hpre
    exact absurd (List.cons_prefix_cons.mp hpre).1 (by decide)

/-- C10 witness. -/
theorem C10_put_not_an_update_witness :
    create_or_update_warehouse [] [("name", .str "W1")]
      (fun _ => .ok [[("name", .str "W1")]])
    = ⟨["SHOW WAREHOUSES LIKE 'W1'"], .ok ("", ignoredUpdateRow)⟩ :=
  (C10_put_not_an_update "W1" "W1" [("name", .str "W1")]
    [[("name", .str "W1")]] (fun _ => .ok [[("name", .str "W1")]]) []
    rfl (by intro k hk; simp [dkeys] at hk; left; exact hk)
    rfl (by rfl) (by rfl)).1

/-! ## C4 — create-or-alter on a nonexistent instance delegates to create -/

/-- C4: when the existence check reports not-found, `create_or_alter`
returns exactly what the create handler returns, for tasks, tables and
warehouses (for warehouses the only extra executed statement is the SHOW
existence probe itself; the produced CREATE statement and result
coincide). -/
theorem C4_delegates_to_create :
    (∀ (db sch ton : String) (qp body : PyDict) (be : Backend),
      dcontains body "name" = true → dcontains body "definition" = true →
      create_or_alter_task db sch ton qp body Option.none be
        = create_task db sch qp body be)
    ∧ (∀ (action db sch tn : String) (qp body : PyDict) (be : Backend)
        (n0 ns : String),
      normalize_name tn = .ok n0 →
      dlookup body "name" = some (.str ns) →
      normalize_name ns = .ok n0 →
      create_or_alter_table action db sch tn qp body Option.none be
        = create_table action db sch tn (db ++ "." ++ sch ++ "." ++ tn)
            qp body be)
    ∧ (∀ (qp body : PyDict) (be : Backend) (nameV : PyVal)
        (rows : List PyDict),
      dlookup body "name" = some nameV →
      snowExecute be ("SHOW WAREHOUSES LIKE '" ++ pyStr nameV ++ "'")
        = .ok rows →
      warehouseExists nameV rows = .ok false →
      create_or_update_warehouse qp body be
        = ⟨("SHOW WAREHOUSES LIKE '" ++ pyStr nameV ++ "'")
             :: (create_or_replace_warehouse qp body be).trace,
           (create_or_replace_warehouse qp body be).out⟩) := by
  refine ⟨?_, ?_, ?_⟩
  · intro db sch ton qp body be h1 h2
    simp [create_or_alter_task, h1, h2]
  · intro action db sch tn qp body be n0 ns htn hb hns
    have e1 : normE tn = .ok n0 := by unfold normE; rw [htn]
    have e2 : normE ns = .ok n0 := by unfold normE; rw [hns]
    have e3 : dgetItem body "name" = .ok (.str ns) := by
      unfold dgetItem; rw [hb]
    simp [create_or_alter_table, e1, e2, e3, pyValAsStr, Bind.bind,
      Except.bind, pure, Except.pure]
  · intro qp body be nameV rows hn hshow hex
    simp only [create_or_update_warehouse, create_or_replace_warehouse, hn,
      hshow, hex]
    cases h : create_or_replace_warehouse_sql qp body <;> simp [h]

/-- C4 witness: a task body containing `name` and `definition`, a table
body, and a warehouse body, each against a nonexistent instance. -/
theorem C4_delegates_to_create_witness :
    create_or_alter_task "D" "S" "T" []
      [("name", .str "T"), ("definition", .str "select 1")] Option.none
      (fun _ => .ok [[("status", .str "x")]])
    = create_task "D" "S" []
        [("name", .str "T"), ("definition", .str "select 1")]
        (fun _ => .ok [[("status", .str "x")]])
    ∧ create_or_alter_table "" "D" "S" "T" []
        [("name", .str "T"),
         ("columns", .list [.dict [("name", .str "A"),
           ("datatype", .str "int"), ("nullable", .bool true)]])]
        Option.none (fun _ => .ok [[("status", .str "x")]])
      = create_table "" "D" "S" "T" "D.S.T" []
          [("name", .str "T"),
           ("columns", .list [.dict [("name", .str "A"),
             ("datatype", .str "int"), ("nullable", .bool true)]])]
          (fun _ => .ok [[("status", .str "x")]])
    ∧ create_or_update_warehouse [] [("name", .str "W1")]
        (fun s => if s = "SHOW WAREHOUSES LIKE 'W1'" then .ok []
                  else .ok [[("status", .str "x")]])
      = ⟨"SHOW WAREHOUSES LIKE 'W1'"
           :: (create_or_replace_warehouse [] [("name", .str "W1")]
                (fun s => if s = "SHOW WAREHOUSES LIKE 'W1'" then .ok []
                          else .ok [[("status", .str "x")]])).trace,
         (create_or_replace_warehouse [] [("name", .str "W1")]
            (fun s => if s = "SHOW WAREHOUSES LIKE 'W1'" then .ok []
                      else .ok [[("status", .str "x")]])).out⟩ :=
  ⟨C4_delegates_to_create.1 "D" "S" "T" [] _ _ rfl rfl,
   C4_delegates_to_create.2.1 "" "D" "S" "T" [] _ _ "T" "T"
     rfl rfl rfl,
   C4_delegates_to_create.2.2 [] [("name", .str "W1")] _ (.str "W1") []
     rfl (by rfl) rfl⟩

/-! ## C9 — routing order and unmatched paths -/

/-- A template's final literal matches as a prefix. -/
theorem matchChunks_last (l tail : List Char) :
    matchChunks [l] (l ++ tail) = true := by
  simp [matchChunks, List.isPrefixOf_iff_prefix, List.prefix_append]

/-- Stepping one literal and one `[^/]+` wildcard of a template: the
wildcard always extends exactly to the next `/` (or the end). -/
theorem matchChunks_step (l mid : List Char) (r0 : List Char)
    (rest : List (List Char)) (tail : List Char)
    (hm1 : mid ≠ []) (hm2 : ∀ c ∈ mid, c ≠ '/')
    (htl : tail = [] ∨ tail.head? = some '/')
    (hnext : matchChunks (r0 :: rest) tail = true) :
    matchChunks (l :: r0 :: rest) (l ++ (mid ++ tail)) = true := by
  have hpre : l.isPrefixOf (l ++ (mid ++ tail)) = true :=
    List.isPrefixOf_iff_prefix.mpr (List.prefix_append _ _)
  have hdrop : (l ++ (mid ++ tail)).drop l.length = mid ++ tail :=
    List.drop_left _ _
  have htw : (mid ++ tail).takeWhile (fun c => decide (c ≠ '/')) = mid := by
    rw [takeWhile_append_all mid tail
      (fun c hc => decide_eq_true (hm2 c hc))]
    rcases htl with rfl | hh
    · simp
    · cases tail with
      | nil => simp at hh
      | cons c0 t0 =>
        simp only [List.head?] at hh
        injection hh with hh
        subst hh
        simp [List.takeWhile_cons]
  have hdrop2 : (mid ++ tail).drop mid.length = tail := List.drop_left _ _
  simp only [matchChunks, hpre, if_true, hdrop, htw]
  rw [hdrop2]
  simp [hnext, List.isEmpty_eq_true, hm1]

/-- C9: the router tries the task template before the schema and database
templates, so any path of the segment shape
`/api/v2/databases/<db>/schemas/<sch>/tasks/<t>` selects the task
translator; a path matching no template is dispatched to
`BadRequest("Invalid URL")`, status 400. -/
theorem C9_routing (db sch t p : String)
    (hdb1 : db ≠ "") (hdb2 : ∀ c ∈ db.data, c ≠ '/')
    (hs1 : sch ≠ "") (hs2 : ∀ c ∈ sch.data, c ≠ '/')
    (hp : get_resource_name p = Option.none) :
    get_resource_name
      ("/api/v2/databases/" ++ db ++ "/schemas/" ++ sch ++ "/tasks/" ++ t)
      = some "tasks"
    ∧ request_dispatcher_route p
        = .error (.rest (mkBadRequest "Invalid URL"))
    ∧ (PyErr.rest (mkBadRequest "Invalid URL")).status = 400 := by
  refine ⟨?_, ?_, rfl⟩
  · have hdb0 : db.data ≠ [] := by
      intro hh; exact hdb1 (by cases db; simp_all)
    have hs0 : sch.data ≠ [] := by
      intro hh; exact hs1 (by cases sch; simp_all)
    have hdata :
        ("/api/v2/databases/" ++ db ++ "/schemas/" ++ sch ++ "/tasks/"
          ++ t).data
        = "/api/v2/databases/".data
            ++ (db.data ++ ("/schemas/".data
              ++ (sch.data ++ ("/tasks".data ++ ('/' :: t.data))))) := by
      simp [String.data_append, List.append_assoc]
    have hmatch : matchChunks
        (["/api/v2/databases/", "/schemas/", "/tasks"].map String.data)
        ("/api/v2/databases/" ++ db ++ "/schemas/" ++ sch ++ "/tasks/"
          ++ t).data = true := by
      rw [hdata]
      simp only [List.map]
      exact matchChunks_step _ db.data _ _
        ("/schemas/".data ++ (sch.data ++ ("/tasks".data ++ '/' :: t.data)))
        hdb0 hdb2 (Or.inr rfl)
        (matchChunks_step _ sch.data _ _ ("/tasks".data ++ '/' :: t.data)
          hs0 hs2 (Or.inr rfl) (matchChunks_last _ _))
    unfold get_resource_name SUPPORTED_RESOURCES
    simp only [List.findSome?]
    rw [hmatch]
    rfl
  · unfold request_dispatcher_route
    rw [hp]

/-- Iterating `create_or_alter_db`'s property loop over entries that agree
with the current state emits nothing. -/
theorem dbCoaLoop_self (current : PyDict) :
    ∀ (sub : PyDict), (∀ e ∈ sub, dlookup current e.1 = some e.2) →
      dbCoaLoop current sub = .ok []
  | [], _ => rfl
  | (k, v) :: rest, h => by
    have h1 : dget current k = v := by
      unfold dget; rw [h (k, v) (List.mem_cons_self _ _)]; rfl
    have ih := dbCoaLoop_self current rest
      (fun e he => h e (List.mem_cons_of_mem _ he))
    simp [dbCoaLoop, h1, pyEq_refl, ih]

/-- C1 amended, database part: a PUT whose body is the dictionary the
describe step returned, and whose comment is present and non-null, builds
an empty plan, executes nothing (for every backend), and returns success
immediately. -/
theorem C1_identical_state_empty_plan (dbName nm : String) (body : PyDict)
    (cv : PyVal) (be : Backend)
    (hnd : nodupKeys body)
    (hn : dlookup body "name" = some (.str nm))
    (hnorm : normalize_name nm = .ok dbName)
    (hc : dlookup body "comment" = some cv)
    (hcnn : isNoneV cv = false) :
    create_or_alter_db_existing dbName body body be = ⟨[], .ok ("", [])⟩ := by
  have hdc : dcontains body "name" = true := by
    unfold dcontains; rw [hn]; rfl
  have hdg : dget body "name" = .str nm := by
    unfold dget; rw [hn]; rfl
  have hne : normE nm = .ok dbName := by unfold normE; rw [hnorm]
  have hloop : dbCoaLoop body body = .ok [] :=
    dbCoaLoop_self body body (fun e he => dlookup_of_mem_nodup hnd he)
  have hdcc : dcontains body "comment" = true := by
    unfold dcontains; rw [hc]; rfl
  have hdgc : dget body "comment" = cv := by
    unfold dget; rw [hc]; rfl
  simp [create_or_alter_db_existing, hdc, hdg, hne, pyValAsStr, Bind.bind,
    Except.bind, hloop, hdcc, hdgc, hcnn]

/-- C1 amended witness. -/
theorem C1_identical_state_empty_plan_witness :
    create_or_alter_db_existing "D"
      [("name", .str "D"), ("comment", .str "c"), ("owner", .str "ADMIN")]
      [("name", .str "D"), ("comment", .str "c"), ("owner", .str "ADMIN")]
      (fun _ => .ok []) = ⟨[], .ok ("", [])⟩ :=
  C1_identical_state_empty_plan "D" "D"
    [("name", .str "D"), ("comment", .str "c"), ("owner", .str "ADMIN")]
    (.str "c") (fun _ => .ok []) (by decide) rfl rfl rfl rfl

/-- Helper for C2: the property loop of `_create_or_alter_task` raises the
managed-warehouse `BadRequest` when the body supplies a value differing
from the current one (body and describe result otherwise minimal and
agreeing). -/
theorem task_coa_plan_utmi_raises (v w : PyVal) (hvw : pyEq v w = false) :
    task_coa_plan "D.S.T" "T"
      [("name", .str "T"), ("definition", .str "select 1"),
       ("user_task_managed_initial_warehouse_size", v)]
      [("name", .str "T"), ("definition", .str "select 1"),
       ("predecessors", .list []), ("session_parameters", .dict []),
       ("config", .dict []),
       ("user_task_managed_initial_warehouse_size", w)]
    = .error (.rest (mkBadRequest
        "Managed Warehouse cannot be changed on an existing resource")) := by
  have hpre : (["warehouse", "schedule", "comment", "config",
      "session_parameters", "predecessors"] : List String).foldlM
      (taskStep "D.S.T" "T"
        [("name", .str "T"), ("definition", .str "select 1"),
         ("user_task_managed_initial_warehouse_size", v)]
        [("name", .str "T"), ("definition", .str "select 1"),
         ("predecessors", .list []), ("session_parameters", .dict []),
         ("config", .dict []),
         ("user_task_managed_initial_warehouse_size", w)])
      ⟨[], [], []⟩ = .ok ⟨[], ["schedule", "config"], []⟩ := rfl
  have hstep : taskStep "D.S.T" "T"
      [("name", .str "T"), ("definition", .str "select 1"),
       ("user_task_managed_initial_warehouse_size", v)]
      [("name", .str "T"), ("definition", .str "select 1"),
       ("predecessors", .list []), ("session_parameters", .dict []),
       ("config", .dict []),
       ("user_task_managed_initial_warehouse_size", w)]
      ⟨[], ["schedule", "config"], []⟩
      "user_task_managed_initial_warehouse_size"
      = .error (.rest (mkBadRequest
          "Managed Warehouse cannot be changed on an existing resource")) := by
    simp [taskStep, task_scalar_group, dget, dlookup, List.find?, dcontains,
      hvw, throw, throwThe, MonadExceptOf.throw]
  unfold task_coa_plan
  rw [show (task_optional ++ task_required)
      = ["warehouse", "schedule", "comment", "config", "session_parameters",
         "predecessors"]
        ++ ("user_task_managed_initial_warehouse_size"
            :: ["user_task_timeout_ms", "condition",
                "allow_overlapping_execution", "error_integration",
                "suspend_task_after_num_failures", "name", "definition"])
      from rfl]
  rw [List.foldlM_append]
  rw [hpre]
  simp only [Bind.bind, Except.bind, List.foldlM_cons]
  rw [hstep]

/-- Helper for C2: the property loop of `_create_or_alter_task` raises the
rename `BadRequest` when the body name normalizes differently from the
task's path name. -/
theorem task_coa_plan_rename_raises (nm n2 : String)
    (hn : normalize_name nm = .ok n2) (hne : n2 ≠ "T") :
    task_coa_plan "D.S.T" "T"
      [("name", .str nm), ("definition", .str "select 1")]
      [("name", .str "T"), ("definition", .str "select 1"),
       ("predecessors", .list []), ("session_parameters", .dict []),
       ("config", .dict []),
       ("user_task_managed_initial_warehouse_size", .none)]
    = .error (.rest (mkBadRequest
        "Rename is not supported with the create_or_update API.")) := by
  have hpre : (["warehouse", "schedule", "comment", "config",
      "session_parameters", "predecessors",
      "user_task_managed_initial_warehouse_size", "user_task_timeout_ms",
      "condition", "allow_overlapping_execution", "error_integration",
      "suspend_task_after_num_failures"] : List String).foldlM
      (taskStep "D.S.T" "T"
        [("name", .str nm), ("definition", .str "select 1")]
        [("name", .str "T"), ("definition", .str "select 1"),
         ("predecessors", .list []), ("session_parameters", .dict []),
         ("config", .dict []),
         ("user_task_managed_initial_warehouse_size", .none)])
      ⟨[], [], []⟩
      = .ok ⟨["ALTER TASK D.S.T MODIFY WHEN 1=1"], ["schedule", "config"],
             []⟩ := rfl
  have hnE : normE nm = .ok n2 := by unfold normE; rw [hn]
  have hstep : taskStep "D.S.T" "T"
      [("name", .str nm), ("definition", .str "select 1")]
      [("name", .str "T"), ("definition", .str "select 1"),
       ("predecessors", .list []), ("session_parameters", .dict []),
       ("config", .dict []),
       ("user_task_managed_initial_warehouse_size", .none)]
      ⟨["ALTER TASK D.S.T MODIFY WHEN 1=1"], ["schedule", "config"], []⟩
      "name"
      = .error (.rest (mkBadRequest
          "Rename is not supported with the create_or_update API.")) := by
    simp [taskStep, task_scalar_group, dget, dlookup, List.find?, dcontains,
      pyValAsStr, hnE, hne, throw, throwThe, MonadExceptOf.throw,
      Bind.bind, Except.bind, show normE "T" = Except.ok "T" from rfl]
  unfold task_coa_plan
  rw [show (task_optional ++ task_required)
      = ["warehouse", "schedule", "comment", "config", "session_parameters",
         "predecessors", "user_task_managed_initial_warehouse_size",
         "user_task_timeout_ms", "condition", "allow_overlapping_execution",
         "error_integration", "suspend_task_after_num_failures"]
        ++ ("name" :: ["definition"]) from rfl]
  rw [List.foldlM_append]
  rw [hpre]
  simp only [Bind.bind, Except.bind, List.foldlM_cons]
  rw [hstep]

/-- Helper for C2: some value quoted by `try_single_quote_value` succeeds
whenever the value is truthy. -/
theorem tsqE_ok_of_truthy (v : PyVal) (h : pyTruthy v = true) :
    ∃ s, tsqE v = .ok s := by
  cases v with
  | str s =>
    simp only [pyTruthy, bne_iff_ne, ne_eq] at h
    by_cases hc : (s.data.head? == some '\''
        && s.data.getLast? == some '\'') = true
    · exact ⟨_, by
        simp only [tsqE, try_single_quote_value]
        rw [if_neg h, if_pos hc]⟩
    · exact ⟨_, by
        simp only [tsqE, try_single_quote_value]
        rw [if_neg h, if_neg hc]⟩
  | none => simp [pyTruthy] at h
  | bool b => exact ⟨_, rfl⟩
  | int n => exact ⟨_, rfl⟩
  | list xs => exact ⟨_, rfl⟩
  | dict kvs => exact ⟨_, rfl⟩

/-- Helper for C2: the database property loop raises a `BadRequest` as
soon as the body differs from the current state on a read-only property. -/
theorem dbCoaLoop_readonly (current : PyDict) :
    ∀ (sub : PyDict),
      (∃ e ∈ sub, db_read_only_props.contains e.1 = true
        ∧ pyEq e.2 (dget current e.1) = false) →
      ∃ m, dbCoaLoop current sub = .error (.rest (mkBadRequest m))
  | [], h => by simp at h
  | (k, v) :: rest, h => by
    by_cases h1 : pyEq v (dget current k) = true
    · have hrest : ∃ e ∈ rest, db_read_only_props.contains e.1 = true
          ∧ pyEq e.2 (dget current e.1) = false := by
        rcases h with ⟨e, he, hro, hne⟩
        rcases List.mem_cons.mp he with rfl | hm
        · rw [h1] at hne; cases hne
        · exact ⟨e, hm, hro, hne⟩
      obtain ⟨m, hm⟩ := dbCoaLoop_readonly current rest hrest
      exact ⟨m, by simp [dbCoaLoop, h1, hm]⟩
    · by_cases h2 : k = "name"
      · have hrest : ∃ e ∈ rest, db_read_only_props.contains e.1 = true
            ∧ pyEq e.2 (dget current e.1) = false := by
          rcases h with ⟨e, he, hro, hne⟩
          rcases List.mem_cons.mp he with rfl | hm
          · subst h2; simp [db_read_only_props] at hro
          · exact ⟨e, hm, hro, hne⟩
        obtain ⟨m, hm⟩ := dbCoaLoop_readonly current rest hrest
        exact ⟨m, by simp [dbCoaLoop, h1, h2, hm]⟩
      · by_cases h3 : db_read_only_props.contains k = true
        · refine ⟨"`" ++ k ++ "` of a database can't be changed as it is read-only", ?_⟩
          have hk : k ∈ db_read_only_props := by simpa using h3
          simp [dbCoaLoop, h1, h2, hk, throw, throwThe, MonadExceptOf.throw]
        · have hrest : ∃ e ∈ rest, db_read_only_props.contains e.1 = true
              ∧ pyEq e.2 (dget current e.1) = false := by
            rcases h with ⟨e, he, hro, hne⟩
            rcases List.mem_cons.mp he with rfl | hm
            · exact absurd hro h3
            · exact ⟨e, hm, hro, hne⟩
          obtain ⟨m, hm⟩ := dbCoaLoop_readonly current rest hrest
          have hk3 : k ∉ db_read_only_props := by simpa using h3
          by_cases h4 : (db_string_props.contains k && pyTruthy v) = true
          · have h4' := h4
            simp only [Bool.and_eq_true] at h4'
            obtain ⟨s, hs⟩ := tsqE_ok_of_truthy v h4'.2
            have hk4 : k ∈ db_string_props ∧ pyTruthy v = true := by
              simpa using h4
            exact ⟨m, by simp [dbCoaLoop, h1, h2, hk3, hk4, hs, hm,
              Bind.bind, Except.bind]⟩
          · have hk4 : ¬ (k ∈ db_string_props ∧ pyTruthy v = true) := by
              simpa using h4
            exact ⟨m, by simp [dbCoaLoop, h1, h2, hk3, hk4, hm,
              Bind.bind, Except.bind, pure, Except.pure]⟩

/-- C2 amended: provided no *other* malformed property faults the plan
builder first (see the counterexample for the empty-string-comment fault),
an attempted change of an immutable property raises `BadRequest` during
plan construction and zero plan statements execute (the trace is empty for
every backend): shown for a task's
`user_task_managed_initial_warehouse_size`, a task's name, a table's kind,
and a database's read-only properties. -/
theorem C2_immutable_change_client_error :
    (∀ (v w : PyVal) (be : Backend), pyEq v w = false →
      create_or_alter_task "D" "S" "T" []
        [("name", .str "T"), ("definition", .str "select 1"),
         ("user_task_managed_initial_warehouse_size", v)]
        (some [("name", .str "T"), ("definition", .str "select 1"),
         ("predecessors", .list []), ("session_parameters", .dict []),
         ("config", .dict []),
         ("user_task_managed_initial_warehouse_size", w)]) be
      = ⟨[], .error (.rest (mkBadRequest
          "Managed Warehouse cannot be changed on an existing resource"))⟩)
    ∧ (∀ (nm n2 : String) (be : Backend),
        normalize_name nm = .ok n2 → n2 ≠ "T" →
      create_or_alter_task "D" "S" "T" []
        [("name", .str nm), ("definition", .str "select 1")]
        (some [("name", .str "T"), ("definition", .str "select 1"),
         ("predecessors", .list []), ("session_parameters", .dict []),
         ("config", .dict []),
         ("user_task_managed_initial_warehouse_size", .none)]) be
      = ⟨[], .error (.rest (mkBadRequest
          "Rename is not supported with the create_or_update API."))⟩)
    ∧ (∀ (action db sch tn : String) (qp body orig : PyDict) (be : Backend)
        (n0 ns ks os : String),
        normalize_name tn = .ok n0 →
        dlookup body "name" = some (.str ns) →
        normalize_name ns = .ok n0 →
        dlookup body "kind" = some (.str ks) → ks ≠ "" →
        dgetItem orig "kind" = .ok (.str os) →
        pyLower ks ≠ pyLower os → pyLower ks ≠ "temp" →
      create_or_alter_table action db sch tn qp body (some orig) be
      = ⟨[], .error (.rest (mkBadRequest
          ("Table kind must match. Original kind is " ++ pyLower os
            ++ " while new kind is " ++ pyLower ks)))⟩)
    ∧ (∀ (dbName nm : String) (body current : PyDict) (be : Backend),
        dlookup body "name" = some (.str nm) →
        normalize_name nm = .ok dbName →
        (∃ e ∈ body, db_read_only_props.contains e.1 = true
          ∧ pyEq e.2 (dget current e.1) = false) →
      ∃ m, create_or_alter_db_existing dbName body current be
        = ⟨[], .error (.rest (mkBadRequest m))⟩) := by
  refine ⟨?_, ?_, ?_, ?_⟩
  · intro v w be hvw
    have hplan := task_coa_plan_utmi_raises v w hvw
    simp [create_or_alter_task, hplan, dcontains, dlookup, List.find?]
  · intro nm n2 be hn hne
    have hplan := task_coa_plan_rename_raises nm n2 hn hne
    simp [create_or_alter_task, hplan, dcontains, dlookup, List.find?]
  · intro action db sch tn qp body orig be n0 ns ks os htn hb hns hk hks ho
      hdiff htempA
    have e1 : normE tn = .ok n0 := by unfold normE; rw [htn]
    have e2 : normE ns = .ok n0 := by unfold normE; rw [hns]
    have e3 : dgetItem body "name" = .ok (.str ns) := by
      unfold dgetItem; rw [hb]
    have hkv : dgetD body "kind" (.str "TABLE") = .str ks := by
      unfold dgetD; rw [hk]; rfl
    have htr : pyTruthy (.str ks) = true := by simp [pyTruthy, hks]
    have hplan : table_coa_plan db sch tn body orig
        = .error (.rest (mkBadRequest
          ("Table kind must match. Original kind is " ++ pyLower os
            ++ " while new kind is " ++ pyLower ks))) := by
      unfold table_coa_plan
      simp [hkv, htr, pyValAsStr, ho, pyEq, hdiff, htempA, pyStr,
        Bind.bind, Except.bind, pure, Except.pure, throw, throwThe,
        MonadExceptOf.throw]
    simp [create_or_alter_table, e1, e2, e3, pyValAsStr, hplan,
      Bind.bind, Except.bind, pure, Except.pure]
  · intro dbName nm body current be hn hnorm hwit
    obtain ⟨m, hm⟩ := dbCoaLoop_readonly current body hwit
    have hdc : dcontains body "name" = true := by
      unfold dcontains; rw [hn]; rfl
    have hdg : dget body "name" = .str nm := by
      unfold dget; rw [hn]; rfl
    have hne : normE nm = .ok dbName := by unfold normE; rw [hnorm]
    exact ⟨m, by simp [create_or_alter_db_existing, hdc, hdg, hne,
      pyValAsStr, Bind.bind, Except.bind, hm]⟩

/-- C2 witness: each of the four immutable-property scenarios at a
concrete input. -/
theorem C2_immutable_change_client_error_witness :
    create_or_alter_task "D" "S" "T" []
      [("name", .str "T"), ("definition", .str "select 1"),
       ("user_task_managed_initial_warehouse_size", .str "XSMALL")]
      (some [("name", .str "T"), ("definition", .str "select 1"),
       ("predecessors", .list []), ("session_parameters", .dict []),
       ("config", .dict []),
       ("user_task_managed_initial_warehouse_size", .none)])
      (fun _ => .ok [])
    = ⟨[], .error (.rest (mkBadRequest
        "Managed Warehouse cannot be changed on an existing resource"))⟩
    ∧ create_or_alter_task "D" "S" "T" []
        [("name", .str "T2"), ("definition", .str "select 1")]
        (some [("name", .str "T"), ("definition", .str "select 1"),
         ("predecessors", .list []), ("session_parameters", .dict []),
         ("config", .dict []),
         ("user_task_managed_initial_warehouse_size", .none)])
        (fun _ => .ok [])
      = ⟨[], .error (.rest (mkBadRequest
          "Rename is not supported with the create_or_update API."))⟩
    ∧ create_or_alter_table "" "D" "S" "T" []
        [("name", .str "T"), ("kind", .str "TEMPORARY")]
        (some [("kind", .str "TABLE")]) (fun _ => .ok [])
      = ⟨[], .error (.rest (mkBadRequest
          ("Table kind must match. Original kind is table "
            ++ "while new kind is temporary")))⟩
    ∧ (∃ m, create_or_alter_db_existing "D"
        [("name", .str "D"), ("owner", .str "X")]
        [("owner", .str "Y")] (fun _ => .ok [])
      = ⟨[], .error (.rest (mkBadRequest m))⟩) :=
  ⟨C2_immutable_change_client_error.1 (.str "XSMALL") .none
      (fun _ => .ok []) rfl,
   C2_immutable_change_client_error.2.1 "T2" "T2" (fun _ => .ok [])
      rfl (by decide),
   C2_immutable_change_client_error.2.2.1 "" "D" "S" "T" []
      [("name", .str "T"), ("kind", .str "TEMPORARY")]
      [("kind", .str "TABLE")] (fun _ => .ok []) "T" "T" "TEMPORARY" "TABLE"
      rfl rfl rfl rfl (by decide) rfl (by decide) (by decide),
   C2_immutable_change_client_error.2.2.2 "D" "D"
      [("name", .str "D"), ("owner", .str "X")] [("owner", .str "Y")]
      (fun _ => .ok []) rfl rfl
      ⟨("owner", .str "X"), List.Mem.tail _ (List.Mem.head _),
        by decide, by decide⟩⟩

/-- C9 witness. -/
theorem C9_routing_witness :
    get_resource_name "/api/v2/databases/DB1/schemas/SCH1/tasks/T1"
      = some "tasks"
    ∧ request_dispatcher_route "/api/v2/other"
        = .error (.rest (mkBadRequest "Invalid URL")) := by
  have h := C9_routing "DB1" "SCH1" "T1" "/api/v2/other"
    (by decide) (by decide) (by decide) (by decide) (by rfl)
  exact ⟨h.1, h.2.1⟩

/-! ## C3 — table plan statement shapes -/

def tablePlanStmt (fn q : String) : Prop :=
  (("alter table " ++ fn ++ " set ").data <+: q.data)
  ∨ (("alter table " ++ fn ++ " unset ").data <+: q.data)
  ∨ (("alter table " ++ fn ++ " modify ").data <+: q.data)
  ∨ (("alter table " ++ fn ++ " add ").data <+: q.data)
  ∨ (("alter table " ++ fn ++ " rename constraint ").data <+: q.data)
  ∨ (("alter table " ++ fn ++ " drop constraint ").data <+: q.data)
  ∨ (("alter table " ++ fn ++ " cluster by (").data <+: q.data)
  ∨ (q = "alter table " ++ fn ++ " drop clustering key")

theorem tps_set (fn t : String) : tablePlanStmt fn
    ("alter table " ++ fn ++ " set " ++ t) := by
  exact Or.inl ⟨t.data, by simp [String.data_append]⟩

theorem tps_unset (fn t : String) : tablePlanStmt fn
    ("alter table " ++ fn ++ " unset " ++ t) := by
  exact Or.inr (Or.inl ⟨t.data, by simp [String.data_append]⟩)

theorem tps_modify (fn t : String) : tablePlanStmt fn
    ("alter table " ++ fn ++ " modify " ++ t) := by
  exact Or.inr (Or.inr (Or.inl ⟨t.data, by simp [String.data_append]⟩))

theorem tps_add_col (fn s : String) : tablePlanStmt fn
    ("alter table " ++ fn ++ " add column " ++ s) := by
  refine Or.inr (Or.inr (Or.inr (Or.inl ⟨("column " ++ s).data, ?_⟩)))
  simp [show (" add column " : String) = " add " ++ "column " from rfl,
    String.data_append]

theorem tps_add_sp (fn x : String) : tablePlanStmt fn
    ("alter table " ++ fn ++ " add " ++ x ++ " ") := by
  refine Or.inr (Or.inr (Or.inr (Or.inl ⟨(x ++ " ").data, ?_⟩)))
  simp [String.data_append]

theorem tps_add2 (fn x : String) : tablePlanStmt fn
    ("alter table " ++ fn ++ " add " ++ x) := by
  exact Or.inr (Or.inr (Or.inr (Or.inl ⟨x.data, by simp [String.data_append]⟩)))

theorem tps_rename (fn a b : String) : tablePlanStmt fn
    ("alter table " ++ fn ++ " rename constraint " ++ a ++ " to " ++ b) := by
  refine Or.inr (Or.inr (Or.inr (Or.inr (Or.inl
    ⟨(a ++ " to " ++ b).data, ?_⟩))))
  simp [String.data_append]

theorem tps_dropcon (fn n : String) : tablePlanStmt fn
    ("alter table " ++ fn ++ " drop constraint " ++ n) := by
  exact Or.inr (Or.inr (Or.inr (Or.inr (Or.inr (Or.inl
    ⟨n.data, by simp [String.data_append]⟩)))))

theorem tps_cluster (fn c : String) : tablePlanStmt fn
    ("alter table " ++ fn ++ " cluster by (" ++ c ++ ")") := by
  refine Or.inr (Or.inr (Or.inr (Or.inr (Or.inr (Or.inr (Or.inl
    ⟨(c ++ ")").data, ?_⟩))))))
  simp [String.data_append]

theorem tps_dropclu (fn : String) : tablePlanStmt fn
    ("alter table " ++ fn ++ " drop clustering key") :=
  Or.inr (Or.inr (Or.inr (Or.inr (Or.inr (Or.inr (Or.inr rfl))))))

theorem tablePlanStmt_not_drop_column (fn q : String) (h : tablePlanStmt fn q) :
    ¬ (("alter table " ++ fn ++ " drop column").data <+: q.data) := by
  intro contra
  have eD : ("alter table " ++ fn ++ " drop column").data
      = (("alter table ".data ++ fn.data) ++ [' ']) ++ 'd' :: "rop column".data := by
    simp [String.data_append,
      show (" drop column" : String).data = ' ' :: 'd' :: "rop column".data from rfl]
  have eD2 : ("alter table " ++ fn ++ " drop column").data
      = (("alter table ".data ++ fn.data) ++ " drop co".data)
          ++ 'l' :: "umn".data := by
    simp [String.data_append,
      show (" drop column" : String).data = " drop co".data ++ 'l' :: "umn".data
        from rfl]
  have eD3 : ("alter table " ++ fn ++ " drop column").data
      = (("alter table ".data ++ fn.data) ++ " drop c".data)
          ++ 'o' :: "lumn".data := by
    simp [String.data_append,
      show (" drop column" : String).data = " drop c".data ++ 'o' :: "lumn".data
        from rfl]
  rcases h with hp | hp | hp | hp | hp | hp | hp | hp
  · rw [show ("alter table " ++ fn ++ " set ").data
        = (("alter table ".data ++ fn.data) ++ [' ']) ++ 's' :: "et ".data from by
      simp [String.data_append,
        show (" set " : String).data = ' ' :: 's' :: "et ".data from rfl]] at hp
    rw [eD] at contra
    exact prefix_both_head_ne (by decide) contra hp
  · rw [show ("alter table " ++ fn ++ " unset ").data
        = (("alter table ".data ++ fn.data) ++ [' ']) ++ 'u' :: "nset ".data from by
      simp [String.data_append,
        show (" unset " : String).data = ' ' :: 'u' :: "nset ".data from rfl]] at hp
    rw [eD] at contra
    exact prefix_both_head_ne (by decide) contra hp
  · rw [show ("alter table " ++ fn ++ " modify ").data
        = (("alter table ".data ++ fn.data) ++ [' ']) ++ 'm' :: "odify ".data from by
      simp [String.data_append,
        show (" modify " : String).data = ' ' :: 'm' :: "odify ".data from rfl]] at hp
    rw [eD] at contra
    exact prefix_both_head_ne (by decide) contra hp
  · rw [show ("alter table " ++ fn ++ " add ").data
        = (("alter table ".data ++ fn.data) ++ [' ']) ++ 'a' :: "dd ".data from by
      simp [String.data_append,
        show (" add " : String).data = ' ' :: 'a' :: "dd ".data from rfl]] at hp
    rw [eD] at contra
    exact prefix_both_head_ne (by decide) contra hp
  · rw [show ("alter table " ++ fn ++ " rename constraint ").data
        = (("alter table ".data ++ fn.data) ++ [' '])
            ++ 'r' :: "ename constraint ".data from by
      simp [String.data_append,
        show (" rename constraint " : String).data
          = ' ' :: 'r' :: "ename constraint ".data from rfl]] at hp
    rw [eD] at contra
    exact prefix_both_head_ne (by decide) contra hp
  · rw [show ("alter table " ++ fn ++ " drop constraint ").data
        = (("alter table ".data ++ fn.data) ++ " drop co".data)
            ++ 'n' :: "straint ".data from by
      simp [String.data_append,
        show (" drop constraint " : String).data
          = " drop co".data ++ 'n' :: "straint ".data from rfl]] at hp
    rw [eD2] at contra
    exact prefix_both_head_ne (by decide) contra hp
  · rw [show ("alter table " ++ fn ++ " cluster by (").data
        = (("alter table ".data ++ fn.data) ++ [' '])
            ++ 'c' :: "luster by (".data from by
      simp [String.data_append,
        show (" cluster by (" : String).data
          = ' ' :: 'c' :: "luster by (".data from rfl]] at hp
    rw [eD] at contra
    exact prefix_both_head_ne (by decide) contra hp
  · subst hp
    rw [eD3, show ("alter table " ++ fn ++ " drop clustering key").data
        = (("alter table ".data ++ fn.data) ++ " drop c".data)
            ++ 'l' :: "ustering key".data from by
      simp [String.data_append,
        show (" drop clustering key" : String).data
          = " drop c".data ++ 'l' :: "ustering key".data from rfl]] at contra
    exact prefix_head_ne (by decide) contra

theorem mapM_mem_shape {α β : Type} (P : β → Prop) (f : α → Except PyErr β)
    (hf : ∀ a b, f a = .ok b → P b) :
    ∀ (l : List α) (out : List β), l.mapM f = .ok out → ∀ q ∈ out, P q := by
  intro l
  induction l with
  | nil =>
    intro out h q hq
    rw [List.mapM_nil] at h
    simp only [pure, Except.pure] at h
    injection h with h
    subst h
    exact absurd hq (List.not_mem_nil q)
  | cons a l ih =>
    intro out h q hq
    rw [List.mapM_cons] at h
    simp only [Bind.bind, Except.bind, pure, Except.pure] at h
    cases h1 : f a with
    | error e => rw [h1] at h; exact Except.noConfusion h
    | ok b =>
      simp only [h1] at h
      cases h2 : l.mapM f with
      | error e => rw [h2] at h; exact Except.noConfusion h
      | ok bs =>
        simp only [h2] at h
        injection h with h
        subst h
        rcases List.mem_cons.mp hq with rfl | hq2
        · exact hf a q h1
        · exact ih bs h2 q hq2


theorem tableClusterSection_shape (fn : String) (body orig : PyDict)
    (out : List String) (h : tableClusterSection fn body orig = .ok out) :
    ∀ q ∈ out, tablePlanStmt fn q := by
  unfold tableClusterSection at h
  simp only [Bind.bind, Except.bind, pure, Except.pure] at h
  repeat' split at h
  all_goals try exact Except.noConfusion h
  all_goals (injection h with h; subst h; intro q hq)
  all_goals try exact absurd hq (List.not_mem_nil q)
  all_goals simp only [List.mem_singleton] at hq
  all_goals subst hq
  · exact tps_cluster fn _
  · exact tps_dropclu fn

theorem tablePropsSection_shape (fn : String) (body orig : PyDict)
    (out : List String) (h : tablePropsSection fn body orig = .ok out) :
    ∀ q ∈ out, tablePlanStmt fn q := by
  unfold tablePropsSection at h
  simp only [Bind.bind, Except.bind, pure, Except.pure] at h
  repeat' split at h
  all_goals try exact Except.noConfusion h
  all_goals (injection h with h; subst h; intro q hq)
  all_goals rcases List.mem_append.mp hq with hq | hq
  all_goals try exact absurd hq (List.not_mem_nil q)
  all_goals first
    | (simp only [List.mem_singleton] at hq; subst hq; exact tps_set fn _)
    | (rcases List.mem_map.mp hq with ⟨p, hp, rfl⟩; exact tps_unset fn p)

theorem tableColumnsSection_shape (fn : String)
    (origCols newCols : List PyVal) (out : List String)
    (h : tableColumnsSection fn origCols newCols = .ok out) :
    ∀ q ∈ out,
      (("alter table " ++ fn ++ " modify ").data <+: q.data)
      ∨ (("alter table " ++ fn ++ " add column ").data <+: q.data) := by
  unfold tableColumnsSection at h
  simp only [Bind.bind, Except.bind, pure, Except.pure, throw, throwThe,
    MonadExceptOf.throw] at h
  split at h
  · exact Except.noConfusion h
  rename_i xm modifies hm
  split at h
  · -- shorter desired list: every branch throws or fails, never .ok
    split at h
    · exact Except.noConfusion h
    · exact Except.noConfusion h
  · split at h
    · exact Except.noConfusion h
    rename_i xa adds ha
    injection h with h
    subst h
    intro q hq
    rcases List.mem_append.mp hq with hq | hq
    · refine Or.inl ?_
      have hmod : ∀ q ∈ modifies,
          (("alter table " ++ fn ++ " modify ").data <+: q.data) := by
        refine foldlM_ok_inv
          (fun l => ∀ q ∈ l,
            (("alter table " ++ fn ++ " modify ").data <+: q.data))
          _ ?_ _ _ _ ?_ hm
        · intro a b a' hPa hstep q hq
          simp only [Bind.bind, Except.bind, pure, Except.pure] at hstep
          cases hc : compare_column b.1 b.2 with
          | error e => rw [hc] at hstep; exact Except.noConfusion hstep
          | ok s =>
            simp only [hc] at hstep
            injection hstep with hstep
            subst hstep
            by_cases hs : s ≠ ""
            · rw [if_pos hs] at hq
              rcases List.mem_append.mp hq with hq | hq
              · exact hPa q hq
              · simp only [List.mem_singleton] at hq
                subst hq
                exact ⟨s.data, by simp [String.data_append]⟩
            · rw [if_neg hs] at hq
              exact hPa q hq
        · intro q hq
          exact absurd hq (List.not_mem_nil q)
      exact hmod q hq
    · refine Or.inr ?_
      have hadd : ∀ q ∈ adds,
          (("alter table " ++ fn ++ " add column ").data <+: q.data) := by
        refine mapM_mem_shape
          (fun q => ("alter table " ++ fn ++ " add column ").data <+: q.data)
          _ ?_ _ _ ha
        intro c b hcb
        simp only [Bind.bind, Except.bind, pure, Except.pure] at hcb
        cases hcs : column_to_sql c with
        | error e => rw [hcs] at hcb; exact Except.noConfusion hcb
        | ok s =>
          simp only [hcs] at hcb
          injection hcb with hcb
          subst hcb
          exact ⟨s.data, by simp [String.data_append]⟩
      exact hadd q hq

set_option maxHeartbeats 2000000 in
theorem tablePkStmts_shape (fn : String) (pks : List PyDict)
    (origPk : Option PyDict) (out : List String)
    (h : tablePkStmts fn pks origPk = .ok out) :
    ∀ q ∈ out, tablePlanStmt fn q := by
  unfold tablePkStmts at h
  simp only [Bind.bind, Except.bind, pure, Except.pure] at h
  repeat' split at h
  all_goals try exact Except.noConfusion h
  all_goals (injection h with h; subst h; intro q hq)
  all_goals try exact absurd hq (List.not_mem_nil q)
  all_goals simp only [List.mem_cons, List.mem_singleton,
    List.not_mem_nil, or_false] at hq
  all_goals rcases hq with rfl | rfl
  all_goals first
    | exact tps_rename fn _ _
    | exact tps_dropcon fn _
    | exact tps_add_sp fn _

set_option maxHeartbeats 2000000 in
theorem tableUkDropStmts_shape (fn : String)
    (origUks uks : List (List String × PyDict)) (out : List String)
    (h : tableUkDropStmts fn origUks uks = .ok out) :
    ∀ q ∈ out, tablePlanStmt fn q := by
  unfold tableUkDropStmts at h
  refine foldlM_ok_inv (fun l => ∀ q ∈ l, tablePlanStmt fn q) _ ?_ _ _ _ ?_ h
  · intro a b a' hPa hstep q hq
    simp only [Bind.bind, Except.bind, pure, Except.pure] at hstep
    repeat' split at hstep
    all_goals try exact Except.noConfusion hstep
    all_goals (injection hstep with hstep; subst hstep)
    all_goals try exact hPa q hq
    all_goals rcases List.mem_append.mp hq with hq | hq
    all_goals try exact hPa q hq
    all_goals simp only [List.mem_singleton] at hq
    all_goals subst hq
    all_goals exact tps_dropcon fn _
  · intro q hq
    exact absurd hq (List.not_mem_nil q)

set_option maxHeartbeats 2000000 in
theorem tableUkStmts_shape (fn : String)
    (origUks uks : List (List String × PyDict)) (out : List String)
    (h : tableUkStmts fn origUks uks = .ok out) :
    ∀ q ∈ out, tablePlanStmt fn q := by
  unfold tableUkStmts at h
  refine foldlM_ok_inv (fun l => ∀ q ∈ l, tablePlanStmt fn q) _ ?_ _ _ _ ?_ h
  · intro a b a' hPa hstep q hq
    simp only [Bind.bind, Except.bind, pure, Except.pure] at hstep
    repeat' split at hstep
    all_goals try exact Except.noConfusion hstep
    all_goals (injection hstep with hstep; subst hstep)
    all_goals try exact hPa q hq
    all_goals rcases List.mem_append.mp hq with hq | hq
    all_goals try exact hPa q hq
    all_goals simp only [List.mem_singleton] at hq
    all_goals subst hq
    all_goals first
      | exact tps_rename fn _ _
      | exact tps_add2 fn _
  · intro q hq
    exact absurd hq (List.not_mem_nil q)

theorem except_bind_ok {α β : Type} (a : α) (f : α → Except PyErr β) :
    (Bind.bind (Except.ok a) f : Except PyErr β) = f a := rfl

theorem except_bind_error {α β : Type} (e : PyErr) (f : α → Except PyErr β) :
    (Bind.bind (Except.error e) f : Except PyErr β) = Except.error e := rfl

theorem except_pure {α : Type} (a : α) :
    (pure a : Except PyErr α) = Except.ok a := rfl

theorem except_throw {α : Type} (e : PyErr) :
    (throw e : Except PyErr α) = Except.error e := rfl

theorem tableConsRest2_shape (fn : String) (newCons origCons : List PyDict)
    (out : List String)
    (h : (do
        let origUks ← uniqueKeyMap origCons
        if (newCons.filter
            (fun c => pyEq (dget c "constraint_type") (.str "PRIMARY KEY"))).length
              > 1 then
          throw (.rest (mkBadRequest
            "There should be only one primary key defined."))
        let pkStmts ← tablePkStmts fn
          (newCons.filter
            (fun c => pyEq (dget c "constraint_type") (.str "PRIMARY KEY")))
          ((origCons.filter
            (fun c => pyEq (dget c "constraint_type") (.str "PRIMARY KEY"))).head?)
        let uks ← uniqueKeyMap newCons
        let dropStmts ← tableUkDropStmts fn origUks uks
        let ukStmts ← tableUkStmts fn origUks uks
        pure (pkStmts ++ dropStmts ++ ukStmts) : Except PyErr (List String))
      = .ok out) :
    ∀ q ∈ out, tablePlanStmt fn q := by
  cases h4 : uniqueKeyMap origCons with
  | error e => rw [h4, except_bind_error] at h; exact Except.noConfusion h
  | ok origUks =>
  simp only [h4, except_bind_ok] at h
  by_cases h5 : (newCons.filter
      (fun c => pyEq (dget c "constraint_type") (.str "PRIMARY KEY"))).length > 1
  · rw [if_pos h5, except_throw, except_bind_error] at h
    exact Except.noConfusion h
  rw [if_neg h5, except_pure, except_bind_ok] at h
  cases h6 : tablePkStmts fn
      (newCons.filter
        (fun c => pyEq (dget c "constraint_type") (.str "PRIMARY KEY")))
      ((origCons.filter
        (fun c => pyEq (dget c "constraint_type") (.str "PRIMARY KEY"))).head?) with
  | error e => rw [h6, except_bind_error] at h; exact Except.noConfusion h
  | ok pkStmts =>
  simp only [h6, except_bind_ok] at h
  cases h7 : uniqueKeyMap newCons with
  | error e => rw [h7, except_bind_error] at h; exact Except.noConfusion h
  | ok uks =>
  simp only [h7, except_bind_ok] at h
  cases h8 : tableUkDropStmts fn origUks uks with
  | error e => rw [h8, except_bind_error] at h; exact Except.noConfusion h
  | ok dropStmts =>
  simp only [h8, except_bind_ok] at h
  cases h9 : tableUkStmts fn origUks uks with
  | error e => rw [h9, except_bind_error] at h; exact Except.noConfusion h
  | ok ukStmts =>
  simp only [h9, except_bind_ok, except_pure] at h
  injection h with h
  subst h
  intro q hq
  rcases List.mem_append.mp hq with hq | hq
  · rcases List.mem_append.mp hq with hq | hq
    · exact tablePkStmts_shape fn _ _ pkStmts h6 q hq
    · exact tableUkDropStmts_shape fn origUks uks dropStmts h8 q hq
  · exact tableUkStmts_shape fn origUks uks ukStmts h9 q hq

theorem tableConsRest_shape (fn : String) (orig : PyDict)
    (newCons : List PyDict) (out : List String)
    (h : (do
        let origCons ←
          if pyTruthy (dget orig "constraints") = true then
            consFromVal (dget orig "constraints")
          else pure []
        let origUks ← uniqueKeyMap origCons
        if (newCons.filter
            (fun c => pyEq (dget c "constraint_type") (.str "PRIMARY KEY"))).length
              > 1 then
          throw (.rest (mkBadRequest
            "There should be only one primary key defined."))
        let pkStmts ← tablePkStmts fn
          (newCons.filter
            (fun c => pyEq (dget c "constraint_type") (.str "PRIMARY KEY")))
          ((origCons.filter
            (fun c => pyEq (dget c "constraint_type") (.str "PRIMARY KEY"))).head?)
        let uks ← uniqueKeyMap newCons
        let dropStmts ← tableUkDropStmts fn origUks uks
        let ukStmts ← tableUkStmts fn origUks uks
        pure (pkStmts ++ dropStmts ++ ukStmts) : Except PyErr (List String))
      = .ok out) :
    ∀ q ∈ out, tablePlanStmt fn q := by
  by_cases ho : pyTruthy (dget orig "constraints") = true
  · rw [if_pos ho] at h
    cases hoc : consFromVal (dget orig "constraints") with
    | error e => rw [hoc, except_bind_error] at h; exact Except.noConfusion h
    | ok origCons =>
      simp only [hoc, except_bind_ok] at h
      exact tableConsRest2_shape fn newCons origCons out h
  · rw [if_neg ho, except_pure, except_bind_ok] at h
    exact tableConsRest2_shape fn newCons [] out h

theorem tableConstraintsSection_shape (fn : String) (body orig : PyDict)
    (newCols : List PyVal) (out : List String)
    (h : tableConstraintsSection fn body orig newCols = .ok out) :
    ∀ q ∈ out, tablePlanStmt fn q := by
  unfold tableConstraintsSection at h
  cases h1 : tableInlineConstraints newCols with
  | error e =>
    rw [h1, except_bind_error] at h
    exact Except.noConfusion h
  | ok inline =>
  simp only [h1, except_bind_ok] at h
  by_cases hb : pyTruthy (dget body "constraints") = true
  · rw [if_pos hb] at h
    cases hds : consFromVal (dget body "constraints") with
    | error e => rw [hds, except_bind_error] at h; exact Except.noConfusion h
    | ok ds =>
      simp only [hds, except_bind_ok, except_pure, except_bind_ok] at h
      exact tableConsRest_shape fn orig (inline ++ ds) out h
  · rw [if_neg hb, except_pure, except_bind_ok] at h
    exact tableConsRest_shape fn orig inline out h

theorem addcol_to_add (fn q : String)
    (h : ("alter table " ++ fn ++ " add column ").data <+: q.data) :
    ("alter table " ++ fn ++ " add ").data <+: q.data := by
  refine List.IsPrefix.trans ⟨"column ".data, ?_⟩ h
  simp [show (" add column " : String) = " add " ++ "column " from rfl,
    String.data_append]

theorem tableCoaRest_shape (fn : String) (body orig : PyDict)
    (out : List String)
    (h : (do
        let propStmts ← tablePropsSection fn body orig
        let origColsV ← dgetItem orig "columns"
        let origCols ← pyValAsList origColsV
        if ¬ pyTruthy (dget body "columns") then
          throw (.rest (mkBadRequest
            "Columns must be provided for create_or_update"))
        let newCols ← pyValAsList (dget body "columns")
        let colStmts ← tableColumnsSection fn origCols newCols
        let conStmts ← tableConstraintsSection fn body orig newCols
        let cluStmts ← tableClusterSection fn body orig
        pure (propStmts ++ colStmts ++ conStmts ++ cluStmts)
        : Except PyErr (List String)) = .ok out) :
    ∀ q ∈ out, tablePlanStmt fn q := by
  cases hp : tablePropsSection fn body orig with
  | error e => rw [hp, except_bind_error] at h; exact Except.noConfusion h
  | ok propStmts =>
  simp only [hp, except_bind_ok] at h
  cases ho1 : dgetItem orig "columns" with
  | error e => rw [ho1, except_bind_error] at h; exact Except.noConfusion h
  | ok origColsV =>
  simp only [ho1, except_bind_ok] at h
  cases ho2 : pyValAsList origColsV with
  | error e => rw [ho2, except_bind_error] at h; exact Except.noConfusion h
  | ok origCols =>
  simp only [ho2, except_bind_ok] at h
  split at h
  · rw [except_throw, except_bind_error] at h
    exact Except.noConfusion h
  rw [except_pure, except_bind_ok] at h
  cases hnew : pyValAsList (dget body "columns") with
  | error e => rw [hnew, except_bind_error] at h; exact Except.noConfusion h
  | ok newCols =>
  simp only [hnew, except_bind_ok] at h
  cases hcol : tableColumnsSection fn origCols newCols with
  | error e => rw [hcol, except_bind_error] at h; exact Except.noConfusion h
  | ok colStmts =>
  simp only [hcol, except_bind_ok] at h
  cases hcon : tableConstraintsSection fn body orig newCols with
  | error e => rw [hcon, except_bind_error] at h; exact Except.noConfusion h
  | ok conStmts =>
  simp only [hcon, except_bind_ok] at h
  cases hclu : tableClusterSection fn body orig with
  | error e => rw [hclu, except_bind_error] at h; exact Except.noConfusion h
  | ok cluStmts =>
  simp only [hclu, except_bind_ok, except_pure] at h
  injection h with h
  subst h
  intro q hq
  rcases List.mem_append.mp hq with hq | hq
  · rcases List.mem_append.mp hq with hq | hq
    · rcases List.mem_append.mp hq with hq | hq
      · exact tablePropsSection_shape fn body orig propStmts hp q hq
      · rcases tableColumnsSection_shape fn origCols newCols colStmts
            hcol q hq with hm | ha
        · exact Or.inr (Or.inr (Or.inl hm))
        · exact Or.inr (Or.inr (Or.inr (Or.inl (addcol_to_add fn q ha))))
    · exact tableConstraintsSection_shape fn body orig newCols conStmts hcon q hq
  · exact tableClusterSection_shape fn body orig cluStmts hclu q hq

theorem tableCoaFromKind_shape (kind : PyVal)
    (dbName schemaName tableName : String) (body orig : PyDict)
    (out : List String)
    (h : (do
        let okV ← dgetItem orig "kind"
        let oks ← pyValAsStr okV
        if ¬ pyEq kind (.str (pyLower oks))
            && ¬ (pyEq kind (.str "temp") && pyLower oks = "temporary") then
          throw (.rest (mkBadRequest
            ("Table kind must match. Original kind is " ++ pyLower oks
              ++ " while new kind is " ++ pyStr kind)))
        let propStmts ← tablePropsSection
          (double_quote_name dbName ++ "." ++ double_quote_name schemaName
            ++ "." ++ double_quote_name tableName) body orig
        let origColsV ← dgetItem orig "columns"
        let origCols ← pyValAsList origColsV
        if ¬ pyTruthy (dget body "columns") then
          throw (.rest (mkBadRequest
            "Columns must be provided for create_or_update"))
        let newCols ← pyValAsList (dget body "columns")
        let colStmts ← tableColumnsSection
          (double_quote_name dbName ++ "." ++ double_quote_name schemaName
            ++ "." ++ double_quote_name tableName) origCols newCols
        let conStmts ← tableConstraintsSection
          (double_quote_name dbName ++ "." ++ double_quote_name schemaName
            ++ "." ++ double_quote_name tableName) body orig newCols
        let cluStmts ← tableClusterSection
          (double_quote_name dbName ++ "." ++ double_quote_name schemaName
            ++ "." ++ double_quote_name tableName) body orig
        pure (propStmts ++ colStmts ++ conStmts ++ cluStmts)
        : Except PyErr (List String)) = .ok out) :
    ∀ q ∈ out, tablePlanStmt
      (double_quote_name dbName ++ "." ++ double_quote_name schemaName
        ++ "." ++ double_quote_name tableName) q := by
  cases hok : dgetItem orig "kind" with
  | error e => rw [hok, except_bind_error] at h; exact Except.noConfusion h
  | ok okV =>
  simp only [hok, except_bind_ok] at h
  cases hos : pyValAsStr okV with
  | error e => rw [hos, except_bind_error] at h; exact Except.noConfusion h
  | ok oks =>
  simp only [hos, except_bind_ok] at h
  split at h
  · rw [except_throw, except_bind_error] at h
    exact Except.noConfusion h
  rw [except_pure, except_bind_ok] at h
  exact tableCoaRest_shape
    (double_quote_name dbName ++ "." ++ double_quote_name schemaName
      ++ "." ++ double_quote_name tableName) body orig out h

theorem table_coa_plan_stmts (dbName schemaName tableName : String)
    (body orig : PyDict) (plan : List String)
    (h : table_coa_plan dbName schemaName tableName body orig = .ok plan) :
    ∀ q ∈ plan, tablePlanStmt
      (double_quote_name dbName ++ "." ++ double_quote_name schemaName
        ++ "." ++ double_quote_name tableName) q := by
  unfold table_coa_plan at h
  dsimp only [] at h
  split at h
  · cases hs : pyValAsStr (dgetD body "kind" (.str "TABLE")) with
    | error e =>
      rw [hs] at h
      repeat rw [except_bind_error] at h
      exact Except.noConfusion h
    | ok s =>
      simp only [hs, except_bind_ok, except_pure] at h
      exact tableCoaFromKind_shape (.str (pyLower s))
        dbName schemaName tableName body orig plan h
  · rw [except_pure, except_bind_ok] at h
    exact tableCoaFromKind_shape (dgetD body "kind" (.str "TABLE"))
      dbName schemaName tableName body orig plan h

/-- C3 (amended): a successfully built table plan never contains a
drop-column statement — every statement is a set/unset, modify,
add, rename-constraint, drop-constraint or cluster-key alteration, none of
which starts with `alter table <fullname> drop column`; the column diff
emits only MODIFY and ADD COLUMN statements; and a desired column list
shorter than the current one raises `BadRequest` whenever the positional
compare loop and the removed-name extraction themselves succeed (see the
counterexample for an input where an earlier section faults first with a
500 instead). -/
theorem C3_no_column_drop :
    (∀ (dbName schemaName tableName : String) (body orig : PyDict)
        (plan : List String),
        table_coa_plan dbName schemaName tableName body orig = .ok plan →
        ∀ q ∈ plan,
          ¬ (("alter table "
              ++ (double_quote_name dbName ++ "." ++ double_quote_name schemaName
                  ++ "." ++ double_quote_name tableName)
              ++ " drop column").data <+: q.data))
    ∧ (∀ (fn : String) (origCols newCols : List PyVal) (out : List String),
        tableColumnsSection fn origCols newCols = .ok out →
        ∀ q ∈ out,
          (("alter table " ++ fn ++ " modify ").data <+: q.data)
          ∨ (("alter table " ++ fn ++ " add column ").data <+: q.data))
    ∧ (∀ (fn : String) (origCols newCols : List PyVal)
        (modifies removed : List String),
        newCols.length < origCols.length →
        ((origCols.take (min newCols.length origCols.length)).zip
            (newCols.take (min newCols.length origCols.length))).foldlM
          (fun acc p => do
            let s ← compare_column p.1 p.2
            pure (if s ≠ "" then
                    acc ++ ["alter table " ++ fn ++ " modify " ++ s]
                  else acc))
          ([] : List String) = .ok modifies →
        (origCols.drop (min newCols.length origCols.length)).mapM
          (fun c => do
            let d ← pyValAsDict c
            let v ← dgetItem d "name"
            pyValAsStr v) = .ok removed →
        tableColumnsSection fn origCols newCols
          = .error (.rest (mkBadRequest
              ("Can't remove a column for create_or_update. These columns are removed "
                ++ String.intercalate "," removed ++ ".")))) := by
  refine ⟨?_, ?_, ?_⟩
  · intro dbName schemaName tableName body orig plan h q hq
    exact tablePlanStmt_not_drop_column _ q
      (table_coa_plan_stmts dbName schemaName tableName body orig plan h q hq)
  · exact fun fn o n out h => tableColumnsSection_shape fn o n out h
  · intro fn origCols newCols modifies removed hlen hfold hmap
    unfold tableColumnsSection
    dsimp only []
    simp only [hfold, except_bind_ok]
    rw [if_pos hlen]
    simp only [hmap, except_bind_ok, except_throw, except_bind_error]

/-- C3 witness: a concrete plan statement is not a column drop, a concrete
column diff emits a MODIFY statement, and a concrete shorter column list
yields `BadRequest`. -/
theorem C3_no_column_drop_witness :
    table_coa_plan "D" "S" "T"
        [("columns", .list [.dict [("name", .str "A"),
           ("datatype", .str "int"), ("nullable", .bool true),
           ("comment", .none)]]),
         ("comment", .str "c")]
        [("kind", .str "TABLE"),
         ("columns", .list [.dict [("name", .str "A"),
           ("datatype", .str "NUMBER(38,0)"), ("nullable", .bool true),
           ("comment", .none)]])]
      = .ok ["alter table \"D\".\"S\".\"T\" set comment='c'"]
    ∧ ¬ (("alter table "
          ++ (double_quote_name "D" ++ "." ++ double_quote_name "S"
              ++ "." ++ double_quote_name "T")
          ++ " drop column").data
        <+: ("alter table \"D\".\"S\".\"T\" set comment='c'" : String).data)
    ∧ ((("alter table " ++ "T" ++ " modify ").data
          <+: ("alter table T modify  A comment 'cc'" : String).data)
        ∨ (("alter table " ++ "T" ++ " add column ").data
          <+: ("alter table T modify  A comment 'cc'" : String).data))
    ∧ tableColumnsSection "T"
        [.dict [("name", .str "A"), ("datatype", .str "NUMBER(38,0)"),
          ("nullable", .bool true), ("comment", .none)],
         .dict [("name", .str "B"), ("datatype", .str "NUMBER(38,0)"),
          ("nullable", .bool true), ("comment", .none)]]
        [.dict [("name", .str "A"), ("datatype", .str "NUMBER(38,0)"),
          ("nullable", .bool true), ("comment", .none)]]
      = .error (.rest (mkBadRequest
          ("Can't remove a column for create_or_update. These columns are removed "
            ++ "B."))) :=
  ⟨rfl,
   C3_no_column_drop.1 "D" "S" "T"
     [("columns", .list [.dict [("name", .str "A"),
        ("datatype", .str "int"), ("nullable", .bool true),
        ("comment", .none)]]),
      ("comment", .str "c")]
     [("kind", .str "TABLE"),
      ("columns", .list [.dict [("name", .str "A"),
        ("datatype", .str "NUMBER(38,0)"), ("nullable", .bool true),
        ("comment", .none)]])]
     ["alter table \"D\".\"S\".\"T\" set comment='c'"] rfl
     "alter table \"D\".\"S\".\"T\" set comment='c'"
     (List.Mem.head _),
   C3_no_column_drop.2.1 "T"
     [.dict [("name", .str "A"), ("datatype", .str "NUMBER(38,0)"),
       ("nullable", .bool true), ("comment", .none)]]
     [.dict [("name", .str "A"), ("datatype", .str "NUMBER(38,0)"),
       ("nullable", .bool true), ("comment", .str "cc")]]
     ["alter table T modify  A comment 'cc'"] rfl
     "alter table T modify  A comment 'cc'" (List.Mem.head _),
   by
     have h := C3_no_column_drop.2.2 "T"
       [.dict [("name", .str "A"), ("datatype", .str "NUMBER(38,0)"),
         ("nullable", .bool true), ("comment", .none)],
        .dict [("name", .str "B"), ("datatype", .str "NUMBER(38,0)"),
         ("nullable", .bool true), ("comment", .none)]]
       [.dict [("name", .str "A"), ("datatype", .str "NUMBER(38,0)"),
         ("nullable", .bool true), ("comment", .none)]]
       [] ["B"] (by decide) rfl rfl
     simpa using h⟩

/-! ## C5 — amended idempotence of `normalize_name` -/

theorem char_toNat_ofNat (n : Nat) (h : n.isValidChar) :
    (Char.ofNat n).toNat = n := by
  simp [Char.ofNat, h, Char.toNat, Char.ofNatAux, UInt32.toNat,
    BitVec.toNat_ofNatLt]

theorem char_le_toNat (a b : Char) : a ≤ b ↔ a.toNat ≤ b.toNat := by
  rw [Char.le_def, UInt32.le_def, BitVec.le_def]
  rfl

theorem pyUpperChar_toNat (c : Char) (h : ('a' ≤ c && c ≤ 'z') = true) :
    (pyUpperChar c).toNat = c.toNat - 32
      ∧ 65 ≤ (pyUpperChar c).toNat ∧ (pyUpperChar c).toNat ≤ 90 := by
  simp only [Bool.and_eq_true, decide_eq_true_eq] at h
  obtain ⟨h1, h2⟩ := h
  rw [char_le_toNat] at h1 h2
  rw [show ('a' : Char).toNat = 97 from rfl] at h1
  rw [show ('z' : Char).toNat = 122 from rfl] at h2
  have hv : (c.toNat - 32).isValidChar := by left; omega
  have ht := char_toNat_ofNat (c.toNat - 32) hv
  have hcond : ('a' ≤ c && c ≤ 'z') = true := by
    simp only [Bool.and_eq_true, decide_eq_true_eq]
    exact ⟨(char_le_toNat 'a' c).mpr h1, (char_le_toNat c 'z').mpr h2⟩
  unfold pyUpperChar
  rw [if_pos hcond]
  exact ⟨ht, by omega, by omega⟩

theorem pyUpperChar_not_lower (c : Char) :
    ('a' ≤ pyUpperChar c && pyUpperChar c ≤ 'z') = false := by
  by_cases h : ('a' ≤ c && c ≤ 'z') = true
  · obtain ⟨ht, h65, h90⟩ := pyUpperChar_toNat c h
    simp only [Bool.and_eq_false_iff, decide_eq_false_iff_not]
    left
    rw [char_le_toNat, show ('a' : Char).toNat = 97 from rfl]
    omega
  · unfold pyUpperChar
    rw [if_neg h]
    exact Bool.eq_false_iff.mpr h

theorem pyUpperChar_idem (c : Char) :
    pyUpperChar (pyUpperChar c) = pyUpperChar c := by
  show (if 'a' ≤ pyUpperChar c && pyUpperChar c ≤ 'z' then
      Char.ofNat ((pyUpperChar c).toNat - 32) else pyUpperChar c)
    = pyUpperChar c
  rw [if_neg (by simp [pyUpperChar_not_lower c])]

theorem isIdStart_pyUpperChar (c : Char) (h : isIdStart c = true) :
    isIdStart (pyUpperChar c) = true := by
  by_cases hl : ('a' ≤ c && c ≤ 'z') = true
  · obtain ⟨ht, h65, h90⟩ := pyUpperChar_toNat c hl
    unfold isIdStart
    simp only [Bool.or_eq_true, Bool.and_eq_true, decide_eq_true_eq]
    refine Or.inl (Or.inr ⟨?_, ?_⟩)
    · rw [char_le_toNat, show ('A' : Char).toNat = 65 from rfl]
      omega
    · rw [char_le_toNat, show ('Z' : Char).toNat = 90 from rfl]
      omega
  · unfold pyUpperChar
    rw [if_neg hl]
    exact h

theorem isIdChar_pyUpperChar (c : Char) (h : isIdChar c = true) :
    isIdChar (pyUpperChar c) = true := by
  by_cases hl : ('a' ≤ c && c ≤ 'z') = true
  · have hs : isIdStart c = true := by
      unfold isIdStart
      simp only [Bool.or_eq_true, Bool.and_eq_true, decide_eq_true_eq]
      exact Or.inr (by simpa using hl)
    unfold isIdChar
    simp only [Bool.or_eq_true]
    exact Or.inl (Or.inl (isIdStart_pyUpperChar c hs))
  · unfold pyUpperChar
    rw [if_neg hl]
    exact h

theorem isIdChar_ne_quote (c : Char) (h : isIdChar c = true) : c ≠ '"' := by
  intro hcon
  subst hcon
  exact absurd h (by decide)

theorem isIdChar_ne_newline (c : Char) (h : isIdChar c = true) : c ≠ '\n' := by
  intro hcon
  subst hcon
  exact absurd h (by decide)

theorem isIdStart_isIdChar (c : Char) (h : isIdStart c = true) :
    isIdChar c = true := by
  unfold isIdChar
  simp only [Bool.or_eq_true]
  exact Or.inl (Or.inl h)

theorem replListF_single (p : Char) (rep : List Char) :
    ∀ (l : List Char) (fuel : Nat), l.length ≤ fuel →
      replListF [p] rep fuel l
        = l.flatMap (fun c => if c = p then rep else [c])
  | [], fuel, _ => by cases fuel <;> rfl
  | c :: rest, fuel + 1, hf => by
    have ih := replListF_single p rep rest fuel (Nat.le_of_succ_le_succ hf)
    show (if [p] ≠ [] ∧ List.isPrefixOf [p] (c :: rest) then
        rep ++ replListF [p] rep fuel (List.drop 1 (c :: rest))
      else c :: replListF [p] rep fuel rest)
      = (c :: rest).flatMap (fun c => if c = p then rep else [c])
    rw [List.flatMap_cons]
    by_cases hc : c = p
    · subst hc
      rw [if_pos ⟨by simp, by simp [List.isPrefixOf]⟩]
      rw [if_pos rfl]
      simp only [List.drop_succ_cons, List.drop_zero]
      rw [ih]
    · have hpre : ¬ ([p] ≠ [] ∧ List.isPrefixOf [p] (c :: rest) = true) := by
        intro hcon
        have h2 := hcon.2
        rw [show List.isPrefixOf [p] (c :: rest) = (p == c && List.isPrefixOf [] rest) from rfl] at h2
        simp at h2
        exact hc h2.symm
      rw [if_neg hpre, if_neg hc, ih]
      rfl

theorem replList_single (p : Char) (rep l : List Char) :
    replList [p] rep l = l.flatMap (fun c => if c = p then rep else [c]) :=
  replListF_single p rep l l.length le_rfl

theorem escape_quotes_data (s : String) :
    (escape_quotes s).data
      = s.data.flatMap (fun c => if c = '"' then ['"', '"'] else [c]) := by
  show replList ['"'] ['"', '"'] s.data = _
  exact replList_single '"' ['"', '"'] s.data

theorem flatMap_quote_id (l : List Char) (h : ∀ c ∈ l, c ≠ '"') :
    l.flatMap (fun c => if c = '"' then ['"', '"'] else [c]) = l := by
  induction l with
  | nil => rfl
  | cons c rest ih =>
    rw [List.flatMap_cons, if_neg (h c (List.mem_cons_self _ _)),
      ih (fun x hx => h x (List.mem_cons_of_mem _ hx))]
    rfl

theorem escape_quotes_id (s : String) (h : ∀ c ∈ s.data, c ≠ '"') :
    escape_quotes s = s := by
  apply String.ext
  rw [escape_quotes_data]
  exact flatMap_quote_id s.data h

theorem mem_flatMap_quote (ch : Char) (l : List Char)
    (h : ch ∈ l.flatMap (fun c => if c = '"' then ['"', '"'] else [c])) :
    ch ∈ l ∨ ch = '"' := by
  rcases List.mem_flatMap.mp h with ⟨a, ha, hin⟩
  by_cases hq : a = '"'
  · rw [if_pos hq] at hin
    rcases List.mem_cons.mp hin with rfl | hin2
    · exact Or.inr rfl
    · simp only [List.mem_singleton] at hin2
      exact Or.inr hin2
  · rw [if_neg hq] at hin
    simp only [List.mem_singleton] at hin
    subst hin
    exact Or.inl ha

theorem flatMap_quote_ne_nil (l : List Char) (h : l ≠ []) :
    l.flatMap (fun c => if c = '"' then ['"', '"'] else [c]) ≠ [] := by
  cases l with
  | nil => exact absurd rfl h
  | cons c rest =>
    rw [List.flatMap_cons]
    by_cases hq : c = '"'
    · rw [if_pos hq]; simp
    · rw [if_neg hq]; simp

theorem replaceQQ_cons_ne (c : Char) (l : List Char) (hc : c ≠ '"') :
    replaceQQ (c :: l) = c :: replaceQQ l := by
  cases l with
  | nil =>
    conv_lhs => rw [replaceQQ.eq_def]
    split
    · rename_i rest2 heq
      injection heq with h1 h2
      exact List.noConfusion h2
    · rename_i c2 rest2 heq
      injection heq with h1 h2
      subst h1
      subst h2
      rfl
    · rename_i heq
      exact absurd heq (by simp)
  | cons d rest =>
    conv_lhs => rw [replaceQQ.eq_def]
    split
    · rename_i rest2 heq
      injection heq with h1 _
      exact absurd h1 hc
    · rename_i c2 rest2 heq
      injection heq with h1 h2
      subst h1
      subst h2
      rfl
    · rename_i heq
      exact absurd heq (by simp)

theorem replaceQQ_flatMap (l : List Char) :
    replaceQQ (l.flatMap (fun c => if c = '"' then ['"', '"'] else [c]))
      = l.filter (fun c => c ≠ '"') := by
  induction l with
  | nil => rfl
  | cons c rest ih =>
    rw [List.flatMap_cons]
    by_cases hq : c = '"'
    · subst hq
      rw [if_pos rfl]
      rw [show replaceQQ (['"', '"']
            ++ (rest.flatMap fun c => if c = '"' then ['"', '"'] else [c]))
          = replaceQQ (rest.flatMap fun c => if c = '"' then ['"', '"'] else [c])
          from rfl]
      rw [ih]
      simp [List.filter_cons]
    · rw [if_neg hq]
      rw [show ([c] ++ (rest.flatMap fun c => if c = '"' then ['"', '"'] else [c]))
          = c :: (rest.flatMap fun c => if c = '"' then ['"', '"'] else [c])
          from rfl]
      rw [replaceQQ_cons_ne c _ hq]
      rw [ih]
      simp [List.filter_cons, hq]

theorem filter_quote_contains (l : List Char) :
    (l.filter (fun c => c ≠ '"')).contains '"' = false := by
  rw [List.contains_eq_any_beq]
  rw [List.any_eq_false]
  intro x hx
  have := List.of_mem_filter hx
  simp only [decide_eq_true_eq] at this
  simp only [beq_iff_eq]
  intro hcon
  exact this (hcon ▸ rfl)

theorem getLast?_ne_of_all (l : List Char) (p : Char → Bool) (b : Char)
    (hall : ∀ c ∈ l, p c = true) (hb : p b = false) :
    (l.getLast? == some b) = false := by
  cases hgl : l.getLast? with
  | none => rfl
  | some a =>
    have ha : a ∈ l := List.mem_of_mem_getLast? (by rw [hgl]; rfl)
    have : a ≠ b := by
      intro hcon
      have h1 := hall a ha
      rw [hcon, hb] at h1
      exact Bool.noConfusion h1
    simp [this]

/-- C5 (amended): `normalize_name` is idempotent on every nonempty name
that contains no newline (the counterexample shows a newline-containing
quoted name, accepted by the repository's own validity check, that is
re-quoted on every application). -/
theorem C5_normalize_idempotent (x y : String)
    (hnl : '\n' ∉ x.data) (hne : x ≠ "")
    (h : normalize_name x = .ok y) :
    normalize_name y = .ok y := by
  unfold normalize_name at h
  by_cases hq : ALREADY_QUOTED_match x = true
  · rw [if_pos hq] at h
    unfold validate_quoted_name at h
    by_cases hc : (replaceQQ ((x.data.drop 1).dropLast)).contains '"' = true
    · rw [if_pos hc] at h
      exact Except.noConfusion h
    · rw [if_neg hc] at h
      injection h with h
      subst h
      unfold normalize_name validate_quoted_name
      rw [if_pos hq, if_neg hc]
  · rw [if_neg hq] at h
    by_cases hu : UNQUOTED_CASE_INSENSITIVE_match x = true
    · rw [if_pos hu] at h
      injection h with h
      subst h
      -- y = escape_quotes (pyUpper x)
      unfold UNQUOTED_CASE_INSENSITIVE_match at hu
      simp only [Bool.or_eq_true, Bool.and_eq_true] at hu
      have hcore : (match x.data with
          | [] => false
          | c :: rest => isIdStart c && rest.all isIdChar) = true := by
        rcases hu with h1 | ⟨h1, _⟩
        · exact h1
        · exfalso
          cases hgl : x.data.getLast? with
          | none => rw [hgl] at h1; exact absurd h1 (by simp)
          | some a =>
            rw [hgl] at h1
            simp only [beq_iff_eq, Option.some.injEq] at h1
            subst h1
            exact hnl (List.mem_of_mem_getLast? (by rw [hgl]; rfl))
      cases hx : x.data with
      | nil => exact absurd (String.ext (by rw [hx])) hne
      | cons c rest =>
        simp only [hx, Bool.and_eq_true] at hcore
        obtain ⟨hstart, hall⟩ := hcore
        have hallChar := List.all_eq_true.mp hall
        have hxid : ∀ ch ∈ x.data, isIdChar ch = true := by
          rw [hx]
          intro ch hch
          rcases List.mem_cons.mp hch with rfl | h2
          · exact isIdStart_isIdChar _ hstart
          · exact hallChar ch h2
        have hud : (pyUpper x).data = x.data.map pyUpperChar := rfl
        have huid : ∀ ch ∈ (pyUpper x).data, isIdChar ch = true := by
          rw [hud]
          intro ch hch
          rcases List.mem_map.mp hch with ⟨a, ha, rfl⟩
          exact isIdChar_pyUpperChar a (hxid a ha)
        have hnq : ∀ ch ∈ (pyUpper x).data, ch ≠ '"' :=
          fun ch hch => isIdChar_ne_quote ch (huid ch hch)
        have hesc : escape_quotes (pyUpper x) = pyUpper x := escape_quotes_id _ hnq
        rw [hesc]
        have hupperdata : (pyUpper x).data
            = pyUpperChar c :: rest.map pyUpperChar := by
          rw [hud, hx]
          rfl
        have hcq : (pyUpperChar c == '"') = false := by
          simp [isIdChar_ne_quote _ (isIdChar_pyUpperChar c
            (isIdStart_isIdChar c hstart))]
        have hAQ : ALREADY_QUOTED_match (pyUpper x) = false := by
          unfold ALREADY_QUOTED_match
          rw [Bool.or_eq_false_iff]
          constructor
          · simp only [hupperdata]
            simp [hcq]
          · rw [Bool.and_eq_false_iff]
            exact Or.inl (getLast?_ne_of_all (pyUpper x).data isIdChar '\n'
              huid (by decide))
        have hUQ : UNQUOTED_CASE_INSENSITIVE_match (pyUpper x) = true := by
          unfold UNQUOTED_CASE_INSENSITIVE_match
          rw [Bool.or_eq_true]
          left
          simp only [hupperdata, Bool.and_eq_true]
          refine ⟨isIdStart_pyUpperChar c hstart, List.all_eq_true.mpr ?_⟩
          intro ch hch
          rcases List.mem_map.mp hch with ⟨a, ha, rfl⟩
          exact isIdChar_pyUpperChar a (hallChar a ha)
        unfold normalize_name
        rw [if_neg (by rw [hAQ]; simp), if_pos hUQ]
        have hupper2 : pyUpper (pyUpper x) = pyUpper x := by
          apply String.ext
          rw [show (pyUpper (pyUpper x)).data
              = (pyUpper x).data.map pyUpperChar from rfl, hud, List.map_map]
          exact List.map_congr_left (fun a _ => pyUpperChar_idem a)
        rw [hupper2, hesc]
    · rw [if_neg hu] at h
      injection h with h
      subst h
      -- y = "\"" ++ escape_quotes x ++ "\""
      have hxne : x.data ≠ [] := by
        intro h0
        exact hne (String.ext (by rw [h0]))
      have hEd := escape_quotes_data x
      have hYd : ("\"" ++ escape_quotes x ++ "\"").data
          = '"' :: ((escape_quotes x).data ++ ['"']) := by
        simp [String.data_append, show ("\"" : String).data = ['"'] from rfl]
      have hEne : (escape_quotes x).data ≠ [] := by
        rw [hEd]
        exact flatMap_quote_ne_nil x.data hxne
      have hmidall : ∀ ch ∈ (escape_quotes x).data, ch ≠ '\n' := by
        intro ch hch
        rw [hEd] at hch
        rcases mem_flatMap_quote ch x.data hch with hin | rfl
        · intro hcon
          subst hcon
          exact hnl hin
        · decide
      have h1 : ('"' :: ((escape_quotes x).data ++ ['"'])).getLast?
          = some '"' := by
        rw [← List.cons_append, List.getLast?_concat]
      have h2 : (('"' :: ((escape_quotes x).data ++ ['"'])).drop 1).dropLast
          = (escape_quotes x).data := by
        simp [List.dropLast_concat]
      have h3 : 2 < ('"' :: ((escape_quotes x).data ++ ['"'])).length := by
        have hpos := List.length_pos.mpr hEne
        simp only [List.length_cons, List.length_append, List.length_singleton]
        omega
      have hAQ : ALREADY_QUOTED_match ("\"" ++ escape_quotes x ++ "\"") = true := by
        unfold ALREADY_QUOTED_match
        rw [Bool.or_eq_true]
        left
        simp only [hYd]
        simp [h1, h2, h3, List.all_eq_true]
        constructor
        · show 0 < (escape_quotes x).data.length
          exact List.length_pos.mpr hEne
        · intro ch hch
          exact hmidall ch hch
      unfold normalize_name
      rw [if_pos hAQ]
      unfold validate_quoted_name
      have hnc : ¬ (replaceQQ
          ((("\"" ++ escape_quotes x ++ "\"").data.drop 1).dropLast)).contains '"'
            = true := by
        rw [hYd, h2, hEd, replaceQQ_flatMap, filter_quote_contains]
        simp
      rw [if_neg hnc]

/-- C5 witness: the non-identifier name `My Table` is quoted once and then
left unchanged. -/
theorem C5_normalize_idempotent_witness :
    ('\n' ∉ ("My Table" : String).data)
    ∧ ("My Table" : String) ≠ ""
    ∧ normalize_name "My Table" = .ok "\"My Table\""
    ∧ normalize_name "\"My Table\"" = .ok "\"My Table\"" :=
  ⟨by decide, by decide, rfl,
   C5_normalize_idempotent "My Table" "\"My Table\"" (by decide) (by decide) rfl⟩

end Bridge
